import Mathlib

/-!
Shallow embedding of the chart-data transformation engine of
`analisis-al-instante-api` (file `src/services/chart_data.py`, together with the
parameter model of `src/models.py`), and proofs settling the frozen claims
about its specification.

Modelling conventions:
* Python/NumPy floating point numbers are modelled as rationals (`ℚ`).
  Non-finite IEEE values (NaN and the infinities) are collapsed into a single
  marker: a dataframe cell is a `Scalar`, and float arithmetic inside the
  kernel-density code runs over `NF := Option ℚ` where `none` stands for a
  non-finite value.  NumPy scalar arithmetic never raises on division by
  zero (it emits a warning and produces `inf`/`nan`), so `nfDiv` is total and
  returns the non-finite marker when the denominator is zero; pure-Python
  `raise` statements are the only error paths and appear as `Except.error`.
* Transcendental operations (`np.exp`, `np.sqrt`) and the float constant
  `np.pi` have no exact rational meaning; builders that use them take a
  `FloatOracle` argument supplying arbitrary rational stand-ins.  Every
  theorem that involves them holds for all oracles, so nothing proved here
  depends on their values.
* Python `dict`s preserve insertion order; they are modelled as association
  lists (`Rec`).  `int` and `float` results are both `Scalar.num`.
* pandas sorts (`groupby`, `pivot_table`, `sort_values`, `value_counts`) are
  modelled with a stable insertion sort.  pandas' default `sort_values` kind
  is unstable, so tie order there is unspecified; no claim below depends on
  the order of tied rows.  Comparing keys of mixed kinds (string vs number)
  raises in pandas; the embedding totalises the comparator by ranking kinds,
  and no claim exercises mixed-kind keys.
-/

namespace ChartData

/-- A dataframe cell: a string, a finite number, the non-finite float marker
(NaN or ±inf), or Python `None`. -/
inductive Scalar where
  | str (s : String)
  | num (q : ℚ)
  | nan
  | none
deriving DecidableEq, Repr

/-- A Python value appearing in an output payload: a scalar, a list, or a
nested dict (association list in insertion order). -/
inductive PyVal where
  | scalar (v : Scalar)
  | list (xs : List PyVal)
  | dict (kvs : List (String × PyVal))

/-- An output record / dict, keys in insertion order. -/
abbrev Rec := List (String × PyVal)

/-- The `{"data": ..., "metadata": ...}` mapping every builder returns. -/
structure Payload where
  data : List Rec
  metadata : Rec

/-- The Python exceptions raised by the engine.  `str(e)` of a `KeyError`
quotes the missing key; for the others it is the message itself. -/
inductive PyError where
  | valueError (msg : String)
  | keyError (msg : String)
  | typeError (msg : String)
  | indexError (msg : String)
  | nameError (msg : String)
deriving DecidableEq, Repr

/-- Python `str(e)` for an exception. -/
def PyError.str : PyError → String
  | .valueError m => m
  | .keyError m => "\x27" ++ m ++ "\x27"
  | .typeError m => m
  | .indexError m => m
  | .nameError m => m

/-- The exception class, used to state whether two failures are
distinguishable by kind (they all are `ValueError` in this engine). -/
def PyError.kind : PyError → String
  | .valueError _ => "ValueError"
  | .keyError _ => "KeyError"
  | .typeError _ => "TypeError"
  | .indexError _ => "IndexError"
  | .nameError _ => "NameError"

/-- Rational stand-ins for `np.exp`, `np.sqrt` and `np.pi` (see file
header); all theorems hold for every oracle. -/
structure FloatOracle where
  exp : ℚ → ℚ
  sqrt : ℚ → ℚ
  pi : ℚ

/-- The tabular dataset handed to the engine (a pandas `DataFrame` with a
default `RangeIndex`, as produced by ingestion).  Ingestion guarantees every
row has one cell per column; `numericCols` records which columns carry a
numeric dtype (used only by the radar builder's `select_dtypes`). -/
structure DataFrame where
  colNames : List String
  numericCols : List String
  rows : List (List Scalar)

/-- `ChartParameters` of `src/models.py`, restricted to the fields the chart
engine reads.  Defaults follow the pydantic model: `aggregation = "sum"`,
`sort_order = "asc"`, everything else absent. -/
structure ChartParameters where
  x_axis : Option String := Option.none
  y_axis : Option String := Option.none
  z_axis : Option String := Option.none
  color_by : Option String := Option.none
  size_by : Option String := Option.none
  aggregation : Option String := Option.some "sum"
  group_by : Option String := Option.none
  stack_by : Option String := Option.none
  bins : Option Nat := Option.none
  bandwidth : Option ℚ := Option.none
  sort_by : Option String := Option.none
  sort_order : Option String := Option.some "asc"
  limit : Option Nat := Option.none

/-- Python truthiness of an optional string: `None` and `""` are falsy. -/
def strTruthy : Option String → Bool
  | Option.none => false
  | Option.some s => s ≠ ""

/-- Python `a or b` for an optional string (used as `params.x or default`). -/
def strOr (a : Option String) (b : String) : String :=
  match a with
  | Option.none => b
  | Option.some s => if s = "" then b else s

/-- Python `a or b` for an optional number: `None` and `0` are falsy. -/
def numOr (a : Option ℚ) (b : ℚ) : ℚ :=
  match a with
  | Option.none => b
  | Option.some q => if q = 0 then b else q

/-- Python `a or b` for an optional positive int (`bins or 20`). -/
def natOr (a : Option Nat) (b : Nat) : Nat :=
  match a with
  | Option.none => b
  | Option.some n => if n = 0 then b else n

/-- `pd.isna` on a cell: NaN and `None` are missing. -/
def Scalar.isNA : Scalar → Bool
  | .nan => true
  | .none => true
  | _ => false

/-- Python `str(...)` of a cell as used when building labels.  Keys in the
claims are strings, for which this is the identity; numeral formatting is
approximated by Lean's rational printer. -/
def Scalar.pyStr : Scalar → String
  | .str s => s
  | .num q => toString q
  | .nan => "nan"
  | .none => "None"

/-! ### NumPy float arithmetic

`NF := Option ℚ` is a finite-or-non-finite float: `some q` is the finite
value `q`, `none` is the single marker for NaN/±inf.  NumPy scalar
operations never raise; division by zero and any operation touching a
non-finite operand produce the marker. -/

/-- Finite-or-non-finite NumPy float. -/
abbrev NF := Option ℚ

def nfAdd : NF → NF → NF
  | Option.some a, Option.some b => Option.some (a + b)
  | _, _ => Option.none

def nfSub : NF → NF → NF
  | Option.some a, Option.some b => Option.some (a - b)
  | _, _ => Option.none

def nfMul : NF → NF → NF
  | Option.some a, Option.some b => Option.some (a * b)
  | _, _ => Option.none

/-- NumPy division: zero denominators yield `inf`/`nan` (a warning, never an
exception), collapsed here into the non-finite marker. -/
def nfDiv : NF → NF → NF
  | Option.some a, Option.some b => if b = 0 then Option.none else Option.some (a / b)
  | _, _ => Option.none

/-- `np.exp` through the oracle; non-finite in, non-finite out. -/
def nfExp (ν : FloatOracle) : NF → NF := Option.map ν.exp

/-- IEEE `<` on scalars: any comparison with NaN is false. -/
def nfLt : NF → NF → Bool
  | Option.some a, Option.some b => a < b
  | _, _ => false

/-- A non-finite float back to a payload cell. -/
def NF.toScalar : NF → Scalar
  | Option.some q => .num q
  | Option.none => .nan

/-- A numeric cell back into NumPy float arithmetic (agg results are numbers
or NaN; strings never reach these call sites). -/
def Scalar.nf : Scalar → NF
  | .num q => Option.some q
  | _ => Option.none

/-- Python `float(cell)`: numbers pass through, NaN stays non-finite,
strings and `None` raise.  (A string holding a numeric literal would
convert in Python; no claim exercises one.) -/
def Scalar.toFloat : Scalar → Except PyError NF
  | .num q => Except.ok (Option.some q)
  | .nan => Except.ok Option.none
  | .str _ => Except.error (PyError.valueError "could not convert string to float")
  | .none => Except.error (PyError.typeError "float() argument must not be None")

/-- Python `a or b` on two optional column names (`params.z_axis or
params.color_by`): the first operand when truthy, otherwise the second. -/
def optOr (a b : Option String) : Option String :=
  if strTruthy a then a else b

/-! ### List primitives shared by the builders -/

/-- Stable insertion of `x` into `l`: `x` goes before the first element `y`
with `¬ le x y` failing, i.e. ties keep their original relative order. -/
def insertLe {α : Type} (le : α → α → Bool) (x : α) : List α → List α
  | [] => [x]
  | y :: ys => if le x y then x :: y :: ys else y :: insertLe le x ys

/-- Stable insertion sort, the model of every pandas sort in this file. -/
def sortLe {α : Type} (le : α → α → Bool) : List α → List α
  | [] => []
  | x :: xs => insertLe le x (sortLe le xs)

/-- Distinct values in order of first encounter (`Series.unique`). -/
def firstDistinct {α : Type} [DecidableEq α] : List α → List α
  | [] => []
  | x :: xs => x :: (firstDistinct xs).filter (· ≠ x)

/-- Ascending key order used by `groupby` / `pivot_table` / `sort_values`:
numbers by value, strings lexicographically.  Cross-kind comparisons raise
`TypeError` in pandas; the embedding totalises them by ranking kinds, and no
claim sorts mixed-kind keys. -/
def scalarRank : Scalar → Nat
  | .num _ => 0
  | .str _ => 1
  | .nan => 2
  | .none => 3

def scalarAsc (a b : Scalar) : Bool :=
  match a, b with
  | .num x, .num y => x ≤ y
  | .str x, .str y => x ≤ y
  | x, y => scalarRank x ≤ scalarRank y

/-- `np.linspace lo hi n` (the KDE sample grids use `n = 50` or `100`). -/
def linspace (lo hi : NF) (n : Nat) : List NF :=
  (List.range n).map fun i =>
    nfAdd lo (nfDiv (nfMul (nfSub hi lo) (Option.some (i : ℚ))) (Option.some ((n : ℚ) - 1)))

/-- `np.percentile xs q` with the default linear interpolation over the
ascending sort.  Callers in the source always pass a non-empty list (NumPy
raises on an empty one); the junk value on `[]` is never reached. -/
def npPercentile (xs : List ℚ) (q : ℚ) : ℚ :=
  let s := sortLe (fun a b => a ≤ b) xs
  let n := s.length
  let pos := (((n : ℚ) - 1) * q) / 100
  let lo := ⌊pos⌋
  let hi := ⌈pos⌉
  let vlo := s.getD lo.toNat 0
  let vhi := s.getD hi.toNat 0
  vlo + (vhi - vlo) * (pos - (lo : ℚ))

/-! ### Dataframe access and pandas primitives -/

/-- Sequential effectful map (a Python `for` loop appending to a list): the
first raised exception aborts the traversal. -/
def mapE {α β : Type} (f : α → Except PyError β) : List α → Except PyError (List β)
  | [] => Except.ok []
  | x :: xs => do
    let y ← f x
    let ys ← mapE f xs
    return y :: ys

/-- Position of a column, `KeyError` when absent (pandas `df[c]`). -/
def DataFrame.colIdx (df : DataFrame) (c : String) : Except PyError Nat :=
  match df.colNames.findIdx? (· = c) with
  | Option.none => Except.error (PyError.keyError c)
  | Option.some i => Except.ok i

/-- `df[c]` as the list of cells in row order. -/
def DataFrame.getCol (df : DataFrame) (c : String) : Except PyError (List Scalar) := do
  let i ← df.colIdx c
  return df.rows.map (fun r => r.getD i Scalar.none)

/-- `df[cs]`: each row's label (the default `RangeIndex` position) paired
with its cells for the selected columns. -/
def DataFrame.select (df : DataFrame) (cs : List String) :
    Except PyError (List (Nat × List Scalar)) := do
  let is ← mapE df.colIdx cs
  return df.rows.enum.map (fun p => (p.1, is.map (fun i => p.2.getD i Scalar.none)))

/-- `.dropna()` over selected rows: keep rows with no missing cell. -/
def dropnaRows (rows : List (Nat × List Scalar)) : List (Nat × List Scalar) :=
  rows.filter (fun p => p.2.all (fun v => ¬ v.isNA))

/-- Cells that must be numeric for a reduction; a string cell raises
`TypeError` in pandas/NumPy arithmetic.  (pandas' `sum` concatenates string
cells instead — no claim reduces strings, see file header.) -/
def toNums : List Scalar → Except PyError (List ℚ)
  | [] => Except.ok []
  | .num q :: xs => do return q :: (← toNums xs)
  | _ :: _ => Except.error (PyError.typeError "could not reduce non-numeric values")

/-- One pandas reduction with default `skipna`: missing cells are dropped
first; `count` counts the non-null cells of any kind; the numeric reductions
of an empty (post-drop) group yield NaN; an unrecognized name raises
(`AttributeError` in pandas, folded into `TypeError` here). -/
def aggReduce (ν : FloatOracle) (f : String) (vals : List Scalar) : Except PyError Scalar := do
  if f = "count" then
    return .num (((vals.filter (fun v => ¬ v.isNA)).length : ℚ))
  else
    let ns ← toNums (vals.filter (fun v => ¬ v.isNA))
    if f = "sum" then
      return .num ns.sum
    else if f = "mean" then
      return (match ns with
        | [] => .nan
        | _ => .num (ns.sum / (ns.length : ℚ)))
    else if f = "median" then
      return (match ns with
        | [] => .nan
        | _ => .num (npPercentile ns 50))
    else if f = "min" then
      return (match ns with
        | [] => .nan
        | x :: xs => .num (xs.foldl min x))
    else if f = "max" then
      return (match ns with
        | [] => .nan
        | x :: xs => .num (xs.foldl max x))
    else if f = "var" then
      return (match ns with
        | [] => .nan
        | [_] => .nan
        | _ =>
          let μ := ns.sum / (ns.length : ℚ)
          .num ((ns.map (fun x => (x - μ) ^ 2)).sum / ((ns.length : ℚ) - 1)))
    else if f = "std" then
      return (match ns with
        | [] => .nan
        | [_] => .nan
        | _ =>
          let μ := ns.sum / (ns.length : ℚ)
          .num (ν.sqrt ((ns.map (fun x => (x - μ) ^ 2)).sum / ((ns.length : ℚ) - 1))))
    else
      throw (PyError.typeError ("unknown reduction " ++ f))

/-- `df.groupby(k)[v].agg(f).reset_index()`: distinct non-null keys in
ascending order (pandas default `sort=True` — not first-encounter order),
each with the reduction of the value cells of its rows.  After
`reset_index` the row labels are `0,1,...` in this key order. -/
def groupbyAgg (ν : FloatOracle) (keys vals : List Scalar) (f : String) :
    Except PyError (List (Scalar × Scalar)) :=
  mapE (fun k => do
    let gv := (keys.zip vals).filterMap
      (fun p => if p.1 = k then Option.some p.2 else Option.none)
    let r ← aggReduce ν f gv
    return (k, r))
    (sortLe scalarAsc (firstDistinct (keys.filter (fun k => ¬ k.isNA))))

/-- `df.groupby(k)[v].apply(list)`: per ascending distinct non-null key, the
raw list of value cells (missing value cells are kept). -/
def groupbyLists (keys vals : List Scalar) : List (Scalar × List Scalar) :=
  (sortLe scalarAsc (firstDistinct (keys.filter (fun k => ¬ k.isNA)))).map fun k =>
    (k, (keys.zip vals).filterMap
      (fun p => if p.1 = k then Option.some p.2 else Option.none))

/-- `Series.value_counts()`: distinct non-null values with multiplicities,
most frequent first (stable on ties here; pandas leaves tie order to an
unstable sort, and no claim has tied counts). -/
def valueCounts (xs : List Scalar) : List (Scalar × Nat) :=
  let xs' := xs.filter (fun v => ¬ v.isNA)
  sortLe (fun a b => b.2 ≤ a.2)
    ((firstDistinct xs').map (fun k => (k, (xs'.filter (· = k)).length)))

/-- `df.pivot_table(values=v, index=i, columns=c, aggfunc=f, fill_value=0)`:
ascending distinct non-null index and column keys; each cell reduces the
value cells of its matching rows, and combinations with no rows — as well
as NaN reduction results — are filled with `0`. -/
def pivotTable (ν : FloatOracle) (idxs cols vals : List Scalar) (f : String) :
    Except PyError (List Scalar × List Scalar × List (List Scalar)) := do
  let iks := sortLe scalarAsc (firstDistinct (idxs.filter (fun k => ¬ k.isNA)))
  let cks := sortLe scalarAsc (firstDistinct (cols.filter (fun k => ¬ k.isNA)))
  let rows3 := idxs.zip (cols.zip vals)
  let cells ← mapE (fun ik => mapE (fun ck => do
    let gv := rows3.filterMap
      (fun t => if t.1 = ik ∧ t.2.1 = ck then Option.some t.2.2 else Option.none)
    if gv = [] then
      return Scalar.num 0
    else do
      let r ← aggReduce ν f gv
      return (if r.isNA then Scalar.num 0 else r)) cks) iks
  return (iks, cks, cells)

/-- `df.pivot_table(index=i, columns=c, aggfunc='size', fill_value=0)`:
per-combination row counts (missing combinations are `0`). -/
def pivotSize (idxs cols : List Scalar) :
    List Scalar × List Scalar × List (List Scalar) :=
  let iks := sortLe scalarAsc (firstDistinct (idxs.filter (fun k => ¬ k.isNA)))
  let cks := sortLe scalarAsc (firstDistinct (cols.filter (fun k => ¬ k.isNA)))
  let cells := iks.map fun ik => cks.map fun ck =>
    Scalar.num (((idxs.zip cols).filter (fun t => t.1 = ik ∧ t.2 = ck)).length : ℚ)
  (iks, cks, cells)

/-! ### Builders

One `generate_*` definition per `_generate_*` static method of
`ChartDataService`, in source order. -/

/-- Scalar payload cell. -/
def sv (s : Scalar) : PyVal := .scalar s

/-- String payload cell. -/
def vstr (s : String) : PyVal := .scalar (.str s)

/-- Number payload cell. -/
def vnum (q : ℚ) : PyVal := .scalar (.num q)

/-- `%.2f` bin-boundary formatting, approximated by printing the rational
(no claim reads histogram bin labels). -/
def fmt2 (q : ℚ) : String := toString q

/-- `_generate_bar_data` (chart_data.py:88-122). -/
def generate_bar_data (ν : FloatOracle) (df : DataFrame) (params : ChartParameters) :
    Except PyError Payload := do
  let x_col := params.x_axis
  let y_col := params.y_axis
  let agg_func := strOr params.aggregation "count"
  if ¬ strTruthy x_col then
    throw (PyError.valueError "x_axis is required for bar charts")
  let x := x_col.getD ""
  let xs ← df.getCol x
  if strTruthy y_col then
    let y := y_col.getD ""
    let ys ← df.getCol y
    let grouped ←
      if agg_func = "count" then groupbyAgg ν xs ys "count"
      else if agg_func = "sum" then groupbyAgg ν xs ys "sum"
      else if agg_func = "mean" then groupbyAgg ν xs ys "mean"
      else groupbyAgg ν xs ys agg_func
    let recs := grouped.map (fun p => [(x, sv p.1), (y, sv p.2)])
    return ⟨recs,
      [("x_column", vstr x), ("y_column", vstr y), ("aggregation", vstr agg_func),
       ("total_points", vnum (recs.length : ℚ))]⟩
  else
    let recs := (valueCounts xs).map (fun p => [(x, sv p.1), ("count", vnum (p.2 : ℚ))])
    return ⟨recs,
      [("x_column", vstr x), ("y_column", vstr "count"), ("aggregation", vstr agg_func),
       ("total_points", vnum (recs.length : ℚ))]⟩

/-- `_generate_scatter_data` (chart_data.py:124-151). -/
def generate_scatter_data (df : DataFrame) (params : ChartParameters) :
    Except PyError Payload := do
  let x_col := params.x_axis
  let y_col := params.y_axis
  let color_col := params.color_by
  if ¬ strTruthy x_col ∨ ¬ strTruthy y_col then
    throw (PyError.valueError "Both x_axis and y_axis are required for scatter plots")
  let x := x_col.getD ""
  let y := y_col.getD ""
  let cols := [x, y] ++
    (if strTruthy color_col ∧ df.colNames.contains (color_col.getD "") then
      [color_col.getD ""] else [])
  let rows ← df.select cols
  let kept := dropnaRows rows
  let recs := kept.map (fun p => cols.zip (p.2.map sv))
  return ⟨recs,
    [("x_column", vstr x), ("y_column", vstr y),
     ("color_column", match color_col with
        | Option.some c => vstr c
        | Option.none => .scalar .none),
     ("total_points", vnum (recs.length : ℚ))]⟩

/-- `_generate_histogram_data`'s `np.histogram(data, bins=n)` (`n ≥ 1`):
`n+1` equal-width edges over the observed range — `(0,1)` when the data is
empty, `(v - 1/2, v + 1/2)` when all values equal `v` — and per-bin counts,
the last bin closed on the right. -/
def npHistogram (data : List ℚ) (n : Nat) : List Nat × (ℚ × ℚ) :=
  let lohi : ℚ × ℚ :=
    match data with
    | [] => (0, 1)
    | x :: xs =>
      let mn := xs.foldl min x
      let mx := xs.foldl max x
      if mn = mx then (mn - 1/2, mx + 1/2) else (mn, mx)
  let lo := lohi.1
  let hi := lohi.2
  let counts := (List.range n).map (fun i =>
    let l := lo + (hi - lo) * i / n
    let r := lo + (hi - lo) * (i + 1) / n
    (data.filter (fun v =>
      if i = n - 1 then l ≤ v ∧ v ≤ r else l ≤ v ∧ v < r)).length)
  (counts, (lo, hi))

/-- `_generate_histogram_data` (chart_data.py:153-183). -/
def generate_histogram_data (df : DataFrame) (params : ChartParameters) :
    Except PyError Payload := do
  let x_col := params.x_axis
  let bins := natOr params.bins 20
  if ¬ strTruthy x_col then
    throw (PyError.valueError "x_axis is required for histograms")
  let x := x_col.getD ""
  let colv ← df.getCol x
  let data ← toNums (colv.filter (fun v => ¬ v.isNA))
  let h := npHistogram data bins
  let lo := h.2.1
  let hi := h.2.2
  let recs := (h.1.enum).map (fun p =>
    let l := lo + (hi - lo) * p.1 / bins
    let r := lo + (hi - lo) * (p.1 + 1) / bins
    [("bin", vstr (fmt2 l ++ "-" ++ fmt2 r)), ("count", vnum (p.2 : ℚ))])
  let mn : NF := match data with
    | [] => Option.none
    | x0 :: xs => Option.some (xs.foldl min x0)
  let mx : NF := match data with
    | [] => Option.none
    | x0 :: xs => Option.some (xs.foldl max x0)
  return ⟨recs,
    [("column", vstr x), ("bins", vnum (bins : ℚ)), ("total_values", vnum (data.length : ℚ)),
     ("min_value", sv mn.toScalar), ("max_value", sv mx.toScalar)]⟩

/-- `_generate_pie_data` (chart_data.py:185-205). -/
def generate_pie_data (df : DataFrame) (params : ChartParameters) :
    Except PyError Payload := do
  let x_col := params.x_axis
  if ¬ strTruthy x_col then
    throw (PyError.valueError "x_axis is required for pie charts")
  let x := x_col.getD ""
  let xs ← df.getCol x
  let counts := valueCounts xs
  let recs := counts.map (fun p => [("label", vstr p.1.pyStr), ("value", vnum (p.2 : ℚ))])
  return ⟨recs,
    [("column", vstr x), ("total_categories", vnum (recs.length : ℚ)),
     ("total_values", vnum ((counts.map Prod.snd).sum : ℚ))]⟩

/-- `_generate_line_data` (chart_data.py:207-225). -/
def generate_line_data (df : DataFrame) (params : ChartParameters) :
    Except PyError Payload := do
  let x_col := params.x_axis
  let y_col := params.y_axis
  if ¬ strTruthy x_col ∨ ¬ strTruthy y_col then
    throw (PyError.valueError "Both x_axis and y_axis are required for line charts")
  let x := x_col.getD ""
  let y := y_col.getD ""
  let rows ← df.select [x, y]
  let kept := sortLe (fun p q => scalarAsc (p.2.getD 0 .none) (q.2.getD 0 .none))
    (dropnaRows rows)
  let recs := kept.map (fun p => [x, y].zip (p.2.map sv))
  return ⟨recs,
    [("x_column", vstr x), ("y_column", vstr y), ("total_points", vnum (recs.length : ℚ))]⟩

/-- `_generate_box_data` (chart_data.py:227-255). -/
def generate_box_data (df : DataFrame) (params : ChartParameters) :
    Except PyError Payload := do
  let y_col := params.y_axis
  let group_col := params.x_axis
  if ¬ strTruthy y_col then
    throw (PyError.valueError "y_axis is required for box plots")
  let y := y_col.getD ""
  if strTruthy group_col then
    let g := group_col.getD ""
    let gs ← df.getCol g
    let ys ← df.getCol y
    let recs := (groupbyLists gs ys).map (fun p =>
      [("group", vstr p.1.pyStr), ("values", PyVal.list (p.2.map sv))])
    return ⟨recs,
      [("y_column", vstr y), ("group_column", vstr g),
       ("total_groups", vnum (recs.length : ℚ))]⟩
  else
    let ys ← df.getCol y
    let vals := ys.filter (fun v => ¬ v.isNA)
    let recs := [[("group", vstr y), ("values", PyVal.list (vals.map sv))]]
    return ⟨recs,
      [("y_column", vstr y),
       ("group_column", match group_col with
          | Option.some c => vstr c
          | Option.none => .scalar .none),
       ("total_groups", vnum (recs.length : ℚ))]⟩

/-- Optional column name as a metadata cell (`None` when absent). -/
def optMeta : Option String → PyVal
  | Option.some c => vstr c
  | Option.none => .scalar .none

/-- `d[k] = v` on a payload dict: replace in place or append. -/
def Rec.set (r : Rec) (k : String) (v : PyVal) : Rec :=
  if r.any (fun p => p.1 = k) then
    r.map (fun p => if p.1 = k then (k, v) else p)
  else r ++ [(k, v)]

/-- `_generate_area_data` (chart_data.py:259-300). -/
def generate_area_data (ν : FloatOracle) (df : DataFrame) (params : ChartParameters) :
    Except PyError Payload := do
  let x_col := params.x_axis
  let y_col := params.y_axis
  let stack_by := params.stack_by
  if ¬ strTruthy x_col ∨ ¬ strTruthy y_col then
    throw (PyError.valueError "Both x_axis and y_axis are required for area charts")
  let x := x_col.getD ""
  let y := y_col.getD ""
  if strTruthy stack_by then
    let s := stack_by.getD ""
    let xs ← df.getCol x
    let ys ← df.getCol y
    let ss ← df.getCol s
    let piv ← pivotTable ν xs ss ys (strOr params.aggregation "sum")
    let recs := piv.1.enum.map (fun ip =>
      ((piv.2.1.zip (piv.2.2.getD ip.1 [])).foldl
        (fun (acc : Rec × ℚ) p =>
          let value := match p.2 with
            | .num q => q
            | _ => 0
          let c := acc.2 + value
          (acc.1 ++ [(p.1.pyStr ++ "_value", vnum value),
                     (p.1.pyStr ++ "_cumulative", vnum c)], c))
        ([("x", vstr ip.2.pyStr)], 0)).1)
    return ⟨recs,
      [("x_column", vstr x), ("y_column", vstr y), ("stack_column", optMeta stack_by),
       ("total_points", vnum (recs.length : ℚ)), ("chart_subtype", vstr "stacked")]⟩
  else
    let rows ← df.select [x, y]
    let kept := sortLe (fun p q => scalarAsc (p.2.getD 0 .none) (q.2.getD 0 .none))
      (dropnaRows rows)
    let recs := kept.map (fun p => [x, y].zip (p.2.map sv))
    return ⟨recs,
      [("x_column", vstr x), ("y_column", vstr y), ("stack_column", optMeta stack_by),
       ("total_points", vnum (recs.length : ℚ)), ("chart_subtype", vstr "simple")]⟩

/-- `_generate_donut_data` (chart_data.py:302-309). -/
def generate_donut_data (df : DataFrame) (params : ChartParameters) :
    Except PyError Payload := do
  let pie ← generate_pie_data df params
  return ⟨pie.data,
    ((pie.metadata.set "chart_subtype" (vstr "donut")).set "inner_radius" (vnum (2/5)))⟩

/-- NumPy square. -/
def nfSq (a : NF) : NF := nfMul a a

/-- The KDE loop shared by the violin and density builders: at each grid
point `x`, `Σᵥ exp(-0.5·((x-v)/bw)²) / (n·bw·√(2π))` in NumPy float
arithmetic — a zero bandwidth makes samples non-finite but raises nothing. -/
def kdeCurve (ν : FloatOracle) (vals : List ℚ) (bw : ℚ) (pts : List NF) : List NF :=
  let denom : ℚ := (vals.length : ℚ) * bw * ν.sqrt (2 * ν.pi)
  pts.map fun x =>
    let kde_sum := ((vals.map fun v =>
      nfExp ν (nfMul (Option.some (-(1/2)))
        (nfSq (nfDiv (nfSub x (Option.some v)) (Option.some bw))))).foldl
      nfAdd (Option.some 0))
    nfDiv kde_sum (Option.some denom)

/-- The violin record's quartile dict (`np.percentile` at 25/50/75 plus the
observed extremes). -/
def quartilesRec (vals : List ℚ) (mn mx : ℚ) : PyVal :=
  .dict [("q1", vnum (npPercentile vals 25)), ("median", vnum (npPercentile vals 50)),
         ("q3", vnum (npPercentile vals 75)), ("min", vnum mn), ("max", vnum mx)]

/-- `_generate_violin_data` (chart_data.py:311-388).  The grouped branch
folds over the groups carrying the leaked loop variable `bandwidth`; when no
group survives the `if values:` guard that variable is unbound and the
metadata line raises `NameError`. -/
def generate_violin_data (ν : FloatOracle) (df : DataFrame) (params : ChartParameters) :
    Except PyError Payload := do
  let y_col := params.y_axis
  let group_col := params.x_axis
  if ¬ strTruthy y_col then
    throw (PyError.valueError "y_axis is required for violin plots")
  let y := y_col.getD ""
  if strTruthy group_col then
    let g := group_col.getD ""
    let gs ← df.getCol g
    let ys ← df.getCol y
    let res ← (groupbyLists gs ys).foldlM
      (fun (acc : List Rec × Option ℚ) p => do
        let vals := p.2.filter (fun v => ¬ v.isNA)
        if vals = [] then
          return acc
        else
          let ns ← toNums vals
          match ns with
          | [] => return acc
          | n0 :: nrest =>
            let mn := nrest.foldl min n0
            let mx := nrest.foldl max n0
            let pts := linspace (Option.some mn) (Option.some mx) 50
            let bw := numOr params.bandwidth ((mx - mn) / 20)
            let dens := kdeCurve ν ns bw pts
            return (acc.1 ++
              [[("group", vstr p.1.pyStr), ("values", PyVal.list (vals.map sv)),
                ("density_x", PyVal.list (pts.map (fun t => sv t.toScalar))),
                ("density_y", PyVal.list (dens.map (fun t => sv t.toScalar))),
                ("quartiles", quartilesRec ns mn mx)]], Option.some bw))
      ([], Option.none)
    match res.2 with
    | Option.none =>
      throw (PyError.nameError "name 'bandwidth' is not defined")
    | Option.some bw =>
      return ⟨res.1,
        [("y_column", vstr y), ("group_column", vstr g),
         ("total_groups", vnum (res.1.length : ℚ)), ("bandwidth", vnum bw)]⟩
  else
    let ysc ← df.getCol y
    let vals := ysc.filter (fun v => ¬ v.isNA)
    let ns ← toNums vals
    match ns with
    | [] =>
      throw (PyError.valueError
        "zero-size array to reduction operation minimum which has no identity")
    | n0 :: nrest =>
      let mn := nrest.foldl min n0
      let mx := nrest.foldl max n0
      let pts := linspace (Option.some mn) (Option.some mx) 50
      let bw := numOr params.bandwidth ((mx - mn) / 20)
      let dens := kdeCurve ν ns bw pts
      let recs := [[("group", vstr y), ("values", PyVal.list (vals.map sv)),
                    ("density_x", PyVal.list (pts.map (fun t => sv t.toScalar))),
                    ("density_y", PyVal.list (dens.map (fun t => sv t.toScalar))),
                    ("quartiles", quartilesRec ns mn mx)]]
      return ⟨recs,
        [("y_column", vstr y), ("group_column", optMeta group_col),
         ("total_groups", vnum (recs.length : ℚ)), ("bandwidth", vnum bw)]⟩

/-- Minimum of the pivot cells (`df.min().min()`), NaN-skipping and NaN on
an empty table, as a NumPy float. -/
def cellsMin (cells : List (List Scalar)) : NF :=
  match (cells.flatten).filterMap Scalar.nf with
  | [] => Option.none
  | x :: xs => Option.some (xs.foldl min x)

/-- Maximum of the pivot cells (`df.max().max()`). -/
def cellsMax (cells : List (List Scalar)) : NF :=
  match (cells.flatten).filterMap Scalar.nf with
  | [] => Option.none
  | x :: xs => Option.some (xs.foldl max x)

/-- `_generate_heatmap_data` (chart_data.py:390-435). -/
def generate_heatmap_data (ν : FloatOracle) (df : DataFrame) (params : ChartParameters) :
    Except PyError Payload := do
  let x_col := params.x_axis
  let y_col := params.y_axis
  let value_col := optOr params.z_axis params.color_by
  if ¬ strTruthy x_col ∨ ¬ strTruthy y_col then
    throw (PyError.valueError "Both x_axis and y_axis are required for heatmaps")
  let x := x_col.getD ""
  let y := y_col.getD ""
  let xs ← df.getCol x
  let ys ← df.getCol y
  let piv ←
    if strTruthy value_col then do
      let vs ← df.getCol (value_col.getD "")
      pivotTable ν ys xs vs (strOr params.aggregation "mean")
    else
      Except.ok (pivotSize ys xs)
  let iks := piv.1
  let cks := piv.2.1
  let cells := piv.2.2
  let recs ← mapE (fun yp => mapE (fun xp => do
    let f ← ((cells.getD yp.1 []).getD xp.1 (Scalar.num 0)).toFloat
    return [("x", vstr xp.2.pyStr), ("y", vstr yp.2.pyStr), ("value", sv f.toScalar),
            ("x_index", vnum (xp.1 : ℚ)), ("y_index", vnum (yp.1 : ℚ))]) cks.enum) iks.enum
  return ⟨recs.flatten,
    [("x_column", vstr x), ("y_column", vstr y), ("value_column", optMeta value_col),
     ("x_categories", PyVal.list (cks.map (fun c => vstr c.pyStr))),
     ("y_categories", PyVal.list (iks.map (fun c => vstr c.pyStr))),
     ("min_value", sv (cellsMin cells).toScalar),
     ("max_value", sv (cellsMax cells).toScalar)]⟩

/-- The bubble-size normalization (chart_data.py:456-458):
`10 + 40·(s - min)/(max - min)` per size value when `max > min` (IEEE
comparison: false when the column is empty and min/max are NaN), else the
constant list `[25] * len(size_values)`. -/
def normalizeSizes (sizeNums : List ℚ) : List ℚ :=
  let mn : NF := match sizeNums with
    | [] => Option.none
    | s0 :: srest => Option.some (srest.foldl min s0)
  let mx : NF := match sizeNums with
    | [] => Option.none
    | s0 :: srest => Option.some (srest.foldl max s0)
  match mn, mx with
  | Option.some a, Option.some b =>
    if a < b then sizeNums.map (fun s => 10 + 40 * (s - a) / (b - a))
    else List.replicate sizeNums.length 25
  | _, _ => List.replicate sizeNums.length 25

/-- One bubble output record (chart_data.py:460-476): the loop body of
`data.iterrows()`, building x/y/size/original_size (plus color when the
color column was selected) for the row with `RangeIndex` label `p.1` and
cells `p.2`, looking the normalized size up positionally by that label. -/
def bubbleRow (normalized : List ℚ) (color_col : Option String) (hasColor : Bool)
    (p : Nat × List Scalar) : Except PyError Rec := do
  let xv ← (p.2.getD 0 .none).toFloat
  let yv ← (p.2.getD 1 .none).toFloat
  let sz ← match normalized.get? p.1 with
    | Option.some q => Except.ok q
    | Option.none =>
      Except.error (PyError.indexError "single positional indexer is out-of-bounds")
  let ov ← (p.2.getD 2 .none).toFloat
  let base := [("x", sv xv.toScalar), ("y", sv yv.toScalar), ("size", vnum sz),
               ("original_size", sv ov.toScalar)]
  if strTruthy color_col then
    if hasColor then
      return base ++ [("color", vstr (p.2.getD 3 .none).pyStr)]
    else
      throw (PyError.keyError (color_col.getD ""))
  else
    return base

/-- `_generate_bubble_data` (chart_data.py:437-482).  `data.iterrows()`
yields the original `RangeIndex` labels of the surviving rows, and the
source indexes `normalized_sizes` positionally with those labels
(`.iloc[idx]` on the Series, `[idx]` on the constant list): after rows are
null-dropped a label can exceed the surviving length and raise
`IndexError`; labels inside range select the row at that position. -/
def generate_bubble_data (df : DataFrame) (params : ChartParameters) :
    Except PyError Payload := do
  let x_col := params.x_axis
  let y_col := params.y_axis
  let size_col := params.size_by
  let color_col := params.color_by
  if ¬ strTruthy x_col ∨ ¬ strTruthy y_col ∨ ¬ strTruthy size_col then
    throw (PyError.valueError "x_axis, y_axis, and size_by are required for bubble charts")
  let x := x_col.getD ""
  let y := y_col.getD ""
  let sc := size_col.getD ""
  let hasColor := strTruthy color_col && df.colNames.contains (color_col.getD "")
  let cols := [x, y, sc] ++ (if hasColor then [color_col.getD ""] else [])
  let rows ← df.select cols
  let kept := dropnaRows rows
  let sizeNums ← toNums (kept.map (fun p => p.2.getD 2 .none))
  let mn : NF := match sizeNums with
    | [] => Option.none
    | s0 :: srest => Option.some (srest.foldl min s0)
  let mx : NF := match sizeNums with
    | [] => Option.none
    | s0 :: srest => Option.some (srest.foldl max s0)
  let normalized := normalizeSizes sizeNums
  let recs ← mapE (bubbleRow normalized color_col hasColor) kept
  return ⟨recs,
    [("x_column", vstr x), ("y_column", vstr y), ("size_column", vstr sc),
     ("color_column", optMeta color_col), ("total_points", vnum (recs.length : ℚ)),
     ("size_range", PyVal.dict [("min", sv mn.toScalar), ("max", sv mx.toScalar)])]⟩

/-- `_generate_radar_data` (chart_data.py:484-563). -/
def generate_radar_data (ν : FloatOracle) (df : DataFrame) (params : ChartParameters) :
    Except PyError Payload := do
  let group_col := optOr params.group_by params.color_by
  let ncols0 := df.numericCols
  let ncols1 :=
    if strTruthy params.x_axis ∧ ncols0.contains (params.x_axis.getD "") then
      ncols0.filter (· ≠ params.x_axis.getD "")
    else ncols0
  if ncols1.length < 3 then
    throw (PyError.valueError "Radar charts require at least 3 numeric columns")
  let ncols := match params.limit with
    | Option.some l => if l = 0 then ncols1.take 8 else ncols1.take l
    | Option.none => ncols1.take 8
  let reduceOne : List Scalar → Except PyError Scalar := fun cellsOfCol =>
    if params.aggregation = Option.some "mean" then aggReduce ν "mean" cellsOfCol
    else if params.aggregation = Option.some "sum" then aggReduce ν "sum" cellsOfCol
    else if params.aggregation = Option.some "median" then aggReduce ν "median" cellsOfCol
    else aggReduce ν "mean" cellsOfCol
  if strTruthy group_col ∧ df.colNames.contains (group_col.getD "") then
    let g := group_col.getD ""
    let gs ← df.getCol g
    let uniq := (firstDistinct gs).filter (fun v => ¬ v.isNA)
    let recs ← mapE (fun gv => do
      let vals ← mapE (fun c => do
        let cs ← df.getCol c
        let sub := (gs.zip cs).filterMap
          (fun p => if p.1 = gv then Option.some p.2 else Option.none)
        let r ← reduceOne sub
        return PyVal.dict [("axis", vstr c),
          ("value", if r.isNA then vnum 0 else sv r)]) ncols
      return [("group", vstr gv.pyStr), ("values", PyVal.list vals)]) uniq
    return ⟨recs,
      [("axes", PyVal.list (ncols.map vstr)), ("group_column", optMeta group_col),
       ("total_series", vnum (recs.length : ℚ)),
       ("aggregation", vstr (strOr params.aggregation "mean"))]⟩
  else
    let vals ← mapE (fun c => do
      let cs ← df.getCol c
      let r ← reduceOne cs
      return PyVal.dict [("axis", vstr c), ("value", if r.isNA then vnum 0 else sv r)]) ncols
    let recs := [[("group", vstr "Data"), ("values", PyVal.list vals)]]
    return ⟨recs,
      [("axes", PyVal.list (ncols.map vstr)), ("group_column", optMeta group_col),
       ("total_series", vnum (recs.length : ℚ)),
       ("aggregation", vstr (strOr params.aggregation "mean"))]⟩

/-- `df.groupby([k1, k2])[v].agg(f).reset_index()`: rows with a missing key
cell are dropped, the remaining distinct key pairs appear in ascending
lexicographic order, each with its group's reduction. -/
def groupby2Agg (ν : FloatOracle) (ks1 ks2 vals : List Scalar) (f : String) :
    Except PyError (List (Scalar × Scalar × Scalar)) :=
  let pairs := (ks1.zip ks2).filter (fun p => ¬ p.1.isNA ∧ ¬ p.2.isNA)
  let dks := sortLe
    (fun a b => if a.1 = b.1 then scalarAsc a.2 b.2 else scalarAsc a.1 b.1)
    (firstDistinct pairs)
  mapE (fun k => do
    let gv := (ks1.zip (ks2.zip vals)).filterMap
      (fun t => if t.1 = k.1 ∧ t.2.1 = k.2 then Option.some t.2.2 else Option.none)
    let r ← aggReduce ν f gv
    return (k.1, k.2, r)) dks

/-- `_generate_treemap_data` (chart_data.py:565-622). -/
def generate_treemap_data (ν : FloatOracle) (df : DataFrame) (params : ChartParameters) :
    Except PyError Payload := do
  let category_col := params.x_axis
  let value_col := params.y_axis
  let subcategory_col := params.color_by
  if ¬ strTruthy category_col ∨ ¬ strTruthy value_col then
    throw (PyError.valueError
      "Both x_axis (category) and y_axis (value) are required for treemaps")
  let c := category_col.getD ""
  let v := value_col.getD ""
  if strTruthy subcategory_col ∧ df.colNames.contains (subcategory_col.getD "") then
    let s := subcategory_col.getD ""
    let cs ← df.getCol c
    let ss ← df.getCol s
    let vs ← df.getCol v
    let grouped ← groupby2Agg ν cs ss vs (strOr params.aggregation "sum")
    let cats := (firstDistinct (grouped.map (fun t => t.1))).filter (fun k => ¬ k.isNA)
    let recs := cats.map (fun cat =>
      let catRows := grouped.filter (fun t => t.1 = cat)
      let total := ((catRows.map (fun t => t.2.2)).filterMap Scalar.nf).sum
      let children := catRows.map (fun t =>
        PyVal.dict
          [("name", vstr t.2.1.pyStr), ("value", sv t.2.2),
           ("percentage",
            if 0 < total then sv (nfMul (nfDiv t.2.2.nf (Option.some total))
              (Option.some 100)).toScalar
            else vnum 0)])
      [("name", vstr cat.pyStr), ("value", vnum total), ("children", PyVal.list children)])
    return ⟨recs,
      [("category_column", vstr c), ("value_column", vstr v),
       ("subcategory_column", optMeta subcategory_col),
       ("total_categories", vnum (recs.length : ℚ)),
       ("hierarchical", vstr "True")]⟩
  else
    let cs ← df.getCol c
    let vs ← df.getCol v
    let grouped ← groupbyAgg ν cs vs (strOr params.aggregation "sum")
    let total := ((grouped.map (fun t => t.2)).filterMap Scalar.nf).sum
    let recs := grouped.map (fun t =>
      [("name", vstr t.1.pyStr), ("value", sv t.2),
       ("percentage",
        if 0 < total then sv (nfMul (nfDiv t.2.nf (Option.some total))
          (Option.some 100)).toScalar
        else vnum 0)])
    return ⟨recs,
      [("category_column", vstr c), ("value_column", vstr v),
       ("subcategory_column", optMeta subcategory_col),
       ("total_categories", vnum (recs.length : ℚ)),
       ("hierarchical", vstr (if strTruthy subcategory_col then "True" else "False"))]⟩

/-- `_generate_sunburst_data` (chart_data.py:624-628): delegates to the
treemap builder. -/
def generate_sunburst_data (ν : FloatOracle) (df : DataFrame) (params : ChartParameters) :
    Except PyError Payload :=
  generate_treemap_data ν df params

/-- `_generate_density_data` (chart_data.py:630-690).  Unlike the violin
builder, the default bandwidth is the fixed constant `0.1`. -/
def generate_density_data (ν : FloatOracle) (df : DataFrame) (params : ChartParameters) :
    Except PyError Payload := do
  let x_col := params.x_axis
  let group_col := params.color_by
  if ¬ strTruthy x_col then
    throw (PyError.valueError "x_axis is required for density plots")
  let x := x_col.getD ""
  let bandwidth := numOr params.bandwidth (1/10)
  if strTruthy group_col ∧ df.colNames.contains (group_col.getD "") then
    let g := group_col.getD ""
    let gs ← df.getCol g
    let xs ← df.getCol x
    let uniq := (firstDistinct gs).filter (fun gv => ¬ gv.isNA)
    let recs ← uniq.foldlM
      (fun (acc : List Rec) gv => do
        let cells := (gs.zip xs).filterMap
          (fun p => if p.1 = gv then Option.some p.2 else Option.none)
        let ns ← toNums (cells.filter (fun t => ¬ t.isNA))
        match ns with
        | [] => return acc
        | n0 :: nrest =>
          let mn := nrest.foldl min n0
          let mx := nrest.foldl max n0
          let pts := linspace (Option.some mn) (Option.some mx) 100
          let dens := kdeCurve ν ns bandwidth pts
          return acc ++
            [[("group", vstr gv.pyStr),
              ("x", PyVal.list (pts.map (fun t => sv t.toScalar))),
              ("density", PyVal.list (dens.map (fun t => sv t.toScalar)))]])
      []
    return ⟨recs,
      [("x_column", vstr x), ("group_column", optMeta group_col),
       ("bandwidth", vnum bandwidth), ("total_curves", vnum (recs.length : ℚ))]⟩
  else
    let xs ← df.getCol x
    let ns ← toNums (xs.filter (fun t => ¬ t.isNA))
    let mn : NF := match ns with
      | [] => Option.none
      | n0 :: nrest => Option.some (nrest.foldl min n0)
    let mx : NF := match ns with
      | [] => Option.none
      | n0 :: nrest => Option.some (nrest.foldl max n0)
    let pts := linspace mn mx 100
    let dens := kdeCurve ν ns bandwidth pts
    let recs := [[("group", vstr x),
                  ("x", PyVal.list (pts.map (fun t => sv t.toScalar))),
                  ("density", PyVal.list (dens.map (fun t => sv t.toScalar)))]]
    return ⟨recs,
      [("x_column", vstr x), ("group_column", optMeta group_col),
       ("bandwidth", vnum bandwidth), ("total_curves", vnum (recs.length : ℚ))]⟩

/-- `_generate_ridgeline_data` (chart_data.py:695-701): the density payload
with a `chart_subtype` marker. -/
def generate_ridgeline_data (ν : FloatOracle) (df : DataFrame) (params : ChartParameters) :
    Except PyError Payload := do
  let d ← generate_density_data ν df params
  return ⟨d.data, d.metadata.set "chart_subtype" (vstr "ridgeline")⟩

/-- `_generate_candlestick_data` (chart_data.py:703-716): raises when
`x_axis` is falsy, otherwise returns the placeholder payload. -/
def generate_candlestick_data (params : ChartParameters) :
    Except PyError Payload := do
  if ¬ strTruthy params.x_axis then
    throw (PyError.valueError "x_axis (date) is required for candlestick charts")
  return ⟨[[("error", vstr "Candlestick charts require OHLC data structure")]],
    [("chart_type", vstr "candlestick"), ("status", vstr "not_implemented")]⟩

/-- The waterfall loop body: `float(row[value_col])` — the cell is never
missing after `dropna`, and a string cell raises — then one record holding
the row's value, the pre-row total (`start`) and the post-row total
(`cumulative` and `end`). -/
def waterfallStep (acc : List Rec × ℚ) (p : Nat × List Scalar) :
    Except PyError (List Rec × ℚ) := do
  let value : ℚ ← match p.2.getD 1 Scalar.none with
    | .num q => Except.ok q
    | _ => Except.error (PyError.valueError "could not convert string to float")
  return (acc.1 ++
    [[("category", vstr (p.2.getD 0 Scalar.none).pyStr), ("value", vnum value),
      ("cumulative", vnum (acc.2 + value)), ("start", vnum acc.2),
      ("end", vnum (acc.2 + value))]],
    acc.2 + value)

/-- `_generate_waterfall_data` (chart_data.py:718-751): iterates the
null-dropped rows in dataset order carrying a running total. -/
def generate_waterfall_data (df : DataFrame) (params : ChartParameters) :
    Except PyError Payload := do
  let category_col := params.x_axis
  let value_col := params.y_axis
  if ¬ strTruthy category_col ∨ ¬ strTruthy value_col then
    throw (PyError.valueError "Both x_axis and y_axis are required for waterfall charts")
  let c := category_col.getD ""
  let v := value_col.getD ""
  let rows ← df.select [c, v]
  let kept := dropnaRows rows
  let res ← kept.foldlM waterfallStep ([], 0)
  return ⟨res.1,
    [("category_column", vstr c), ("value_column", vstr v),
     ("total_change", vnum res.2), ("total_steps", vnum (res.1.length : ℚ))]⟩

/-- `_generate_gantt_data` (chart_data.py:753-760): placeholder. -/
def generate_gantt_data : Except PyError Payload :=
  Except.ok ⟨[[("error", vstr "Gantt charts require start_date, end_date, and task columns")]],
    [("chart_type", vstr "gantt"), ("status", vstr "not_implemented")]⟩

/-- `_generate_sankey_data` (chart_data.py:762-769): placeholder. -/
def generate_sankey_data : Except PyError Payload :=
  Except.ok ⟨[[("error", vstr "Sankey diagrams require source, target, and value columns")]],
    [("chart_type", vstr "sankey"), ("status", vstr "not_implemented")]⟩

/-- `_generate_chord_data` (chart_data.py:771-778): placeholder. -/
def generate_chord_data : Except PyError Payload :=
  Except.ok ⟨[[("error", vstr "Chord diagrams require matrix data structure")]],
    [("chart_type", vstr "chord"), ("status", vstr "not_implemented")]⟩

/-- Descending `sort_values(value_col, ascending=False)` order on grouped
rows keyed by their reduced value, missing values last. -/
def descValLE (a b : Scalar) : Bool :=
  match a.nf, b.nf with
  | Option.some x, Option.some y => y ≤ x
  | Option.some _, Option.none => true
  | Option.none, Option.some _ => false
  | Option.none, Option.none => true

/-- `_generate_funnel_data` (chart_data.py:780-813).  `iterrows()` on the
descending-sorted frame yields the pre-sort `reset_index` labels, so the
`order` field is the row's index in the ascending-key grouped table, not its
position in the output. -/
def generate_funnel_data (ν : FloatOracle) (df : DataFrame) (params : ChartParameters) :
    Except PyError Payload := do
  let stage_col := params.x_axis
  let value_col := params.y_axis
  if ¬ strTruthy stage_col ∨ ¬ strTruthy value_col then
    throw (PyError.valueError
      "Both x_axis (stage) and y_axis (value) are required for funnel charts")
  let s := stage_col.getD ""
  let v := value_col.getD ""
  let ss ← df.getCol s
  let vs ← df.getCol v
  let grouped ← groupbyAgg ν ss vs (strOr params.aggregation "sum")
  let labelled := grouped.enum
  let sorted := sortLe (fun a b => descValLE a.2.2 b.2.2) labelled
  let total := ((grouped.map (fun t => t.2)).filterMap Scalar.nf).sum
  let recs := sorted.map (fun t =>
    [("stage", vstr t.2.1.pyStr), ("value", sv t.2.2),
     ("percentage",
      if 0 < total then
        sv (nfMul (nfDiv t.2.2.nf (Option.some total)) (Option.some 100)).toScalar
      else vnum 0),
     ("order", vnum (t.1 : ℚ))])
  return ⟨recs,
    [("stage_column", vstr s), ("value_column", vstr v),
     ("total_stages", vnum (recs.length : ℚ)), ("total_value", vnum total)]⟩

/-- `_generate_stacked_bar_data` (chart_data.py:817-857). -/
def generate_stacked_bar_data (ν : FloatOracle) (df : DataFrame) (params : ChartParameters) :
    Except PyError Payload := do
  let x_col := params.x_axis
  let y_col := params.y_axis
  let stack_col := optOr params.stack_by params.color_by
  if ¬ strTruthy x_col ∨ ¬ strTruthy y_col ∨ ¬ strTruthy stack_col then
    throw (PyError.valueError "x_axis, y_axis, and stack_by are required for stacked bar charts")
  let x := x_col.getD ""
  let y := y_col.getD ""
  let st := stack_col.getD ""
  let xs ← df.getCol x
  let ys ← df.getCol y
  let ss ← df.getCol st
  let piv ← pivotTable ν xs ss ys (strOr params.aggregation "sum")
  let recs := piv.1.enum.map (fun ip =>
    let folded := (piv.2.1.zip (piv.2.2.getD ip.1 [])).foldl
      (fun (acc : Rec × ℚ) p =>
        let value := match p.2 with
          | .num q => q
          | _ => 0
        (acc.1 ++ [(p.1.pyStr ++ "_value", vnum value),
                   (p.1.pyStr ++ "_start", vnum acc.2),
                   (p.1.pyStr ++ "_end", vnum (acc.2 + value))],
         acc.2 + value))
      ([("category", vstr ip.2.pyStr)], 0)
    folded.1 ++ [("total", vnum folded.2)])
  return ⟨recs,
    [("x_column", vstr x), ("y_column", vstr y), ("stack_column", vstr st),
     ("stack_categories", PyVal.list (piv.2.1.map (fun k => sv k))),
     ("total_categories", vnum (recs.length : ℚ))]⟩

/-- `_generate_grouped_bar_data` (chart_data.py:859-865): the stacked-bar
payload with a `chart_subtype` marker. -/
def generate_grouped_bar_data (ν : FloatOracle) (df : DataFrame) (params : ChartParameters) :
    Except PyError Payload := do
  let d ← generate_stacked_bar_data ν df params
  return ⟨d.data, d.metadata.set "chart_subtype" (vstr "grouped")⟩

/-- `_generate_multi_line_data` (chart_data.py:867-898). -/
def generate_multi_line_data (df : DataFrame) (params : ChartParameters) :
    Except PyError Payload := do
  let x_col := params.x_axis
  let y_col := params.y_axis
  let group_col := optOr params.group_by params.color_by
  if ¬ strTruthy x_col ∨ ¬ strTruthy y_col ∨ ¬ strTruthy group_col then
    throw (PyError.valueError "x_axis, y_axis, and group_by are required for multi-line charts")
  let x := x_col.getD ""
  let y := y_col.getD ""
  let g := group_col.getD ""
  let gs ← df.getCol g
  let xs ← df.getCol x
  let ys ← df.getCol y
  let uniq := (firstDistinct gs).filter (fun gv => ¬ gv.isNA)
  let recs := uniq.map (fun gv =>
    let sub := (gs.zip (xs.zip ys)).filterMap
      (fun t => if t.1 = gv then Option.some t.2 else Option.none)
    let kept := sub.filter (fun p => ¬ p.1.isNA ∧ ¬ p.2.isNA)
    let sorted := sortLe (fun p q => scalarAsc p.1 q.1) kept
    [("series", vstr gv.pyStr),
     ("points", PyVal.list (sorted.map (fun p =>
        PyVal.dict [(x, sv p.1), (y, sv p.2)])))])
  return ⟨recs,
    [("x_column", vstr x), ("y_column", vstr y), ("group_column", vstr g),
     ("total_series", vnum (recs.length : ℚ))]⟩

/-- `_generate_stacked_area_data` (chart_data.py:900-906): the area payload
with a `chart_subtype` marker. -/
def generate_stacked_area_data (ν : FloatOracle) (df : DataFrame) (params : ChartParameters) :
    Except PyError Payload := do
  let d ← generate_area_data ν df params
  return ⟨d.data, d.metadata.set "chart_subtype" (vstr "stacked")⟩

/-- The 26 chart-type values of the `ChartType` enum (`src/models.py`), in
dispatch order; every member has a branch in `get_chart_data`. -/
def handledChartTypes : List String :=
  ["bar", "line", "pie", "scatter", "histogram", "box", "area", "donut", "violin",
   "heatmap", "bubble", "radar", "treemap", "sunburst", "density", "ridgeline",
   "candlestick", "waterfall", "gantt", "sankey", "chord", "funnel", "stacked_bar",
   "grouped_bar", "multi_line", "stacked_area"]

/-- `ChartDataService.get_chart_data` (chart_data.py:18-86): storage lookup
(`ValueError`, raised outside the `try`), the sequential chart-type dispatch
(modelled on the enum's runtime string values), the fallback `raise` for a
value with no branch, and the blanket `except` that rewraps every failure
into `ValueError("Error generating chart data: " + str(e))`. -/
def get_chart_data (ν : FloatOracle) (storage : List (String × DataFrame))
    (file_id : String) (chart_type : String) (parameters : ChartParameters) :
    Except PyError Payload :=
  match storage.lookup file_id with
  | Option.none => Except.error (PyError.valueError ("File " ++ file_id ++ " not found"))
  | Option.some df =>
    let r : Except PyError Payload :=
      if chart_type = "bar" then generate_bar_data ν df parameters
      else if chart_type = "line" then generate_line_data df parameters
      else if chart_type = "pie" then generate_pie_data df parameters
      else if chart_type = "scatter" then generate_scatter_data df parameters
      else if chart_type = "histogram" then generate_histogram_data df parameters
      else if chart_type = "box" then generate_box_data df parameters
      else if chart_type = "area" then generate_area_data ν df parameters
      else if chart_type = "donut" then generate_donut_data df parameters
      else if chart_type = "violin" then generate_violin_data ν df parameters
      else if chart_type = "heatmap" then generate_heatmap_data ν df parameters
      else if chart_type = "bubble" then generate_bubble_data df parameters
      else if chart_type = "radar" then generate_radar_data ν df parameters
      else if chart_type = "treemap" then generate_treemap_data ν df parameters
      else if chart_type = "sunburst" then generate_sunburst_data ν df parameters
      else if chart_type = "density" then generate_density_data ν df parameters
      else if chart_type = "ridgeline" then generate_ridgeline_data ν df parameters
      else if chart_type = "candlestick" then generate_candlestick_data parameters
      else if chart_type = "waterfall" then generate_waterfall_data df parameters
      else if chart_type = "gantt" then generate_gantt_data
      else if chart_type = "sankey" then generate_sankey_data
      else if chart_type = "chord" then generate_chord_data
      else if chart_type = "funnel" then generate_funnel_data ν df parameters
      else if chart_type = "stacked_bar" then generate_stacked_bar_data ν df parameters
      else if chart_type = "grouped_bar" then generate_grouped_bar_data ν df parameters
      else if chart_type = "multi_line" then generate_multi_line_data df parameters
      else if chart_type = "stacked_area" then generate_stacked_area_data ν df parameters
      else Except.error (PyError.valueError ("Chart type " ++ chart_type ++ " not implemented"))
    match r with
    | Except.ok p => Except.ok p
    | Except.error e =>
      Except.error (PyError.valueError ("Error generating chart data: " ++ e.str))

/-! ### Fixtures for the concrete instances below -/

/-- A concrete oracle for closed statements; every claim settled on it also
holds for arbitrary oracles wherever the oracle can matter. -/
def idOracle : FloatOracle := ⟨fun q => q, fun q => q, 0⟩

/-- A one-column numeric dataframe, the generic input of the violin/density
claims. -/
def numDF (c : String) (vals : List ℚ) : DataFrame :=
  ⟨[c], [c], vals.map (fun q => [Scalar.num q])⟩

/-- Scenario A's dataset: a single categorical column
`region = ["east", "east", "west"]`. -/
def regionDF : DataFrame :=
  ⟨["region"], [], [[.str "east"], [.str "east"], [.str "west"]]⟩

/-- The finite numeric content of a record's `value` field, used to state
that the reduced values of a payload sum to zero. -/
def recValNF (r : Rec) : Option ℚ :=
  match r.lookup "value" with
  | Option.some (PyVal.scalar s) => s.nf
  | _ => Option.none

/-- A two-row dataset whose values sum to zero — key 1 carries 1, key 2
carries −1. -/
def zeroSumDF : DataFrame :=
  ⟨["k", "v"], ["v"], [[.num 1, .num 1], [.num 2, .num (-1)]]⟩

/-- Three labelled rows with values 3, −1, 4 for the waterfall witness. -/
def waterfallDF : DataFrame :=
  ⟨["c", "v"], ["v"],
   [[.str "a", .num 3], [.str "b", .num (-1)], [.str "c", .num 4]]⟩

/-- Keys encountered in the order 2, 1 — their first-encounter order differs
from their sorted order. -/
def keyOrderDF : DataFrame :=
  ⟨["k", "v"], ["v"], [[.num 2, .num 1], [.num 1, .num 2]]⟩

/-- Two funnel stages whose reduced values are 10 and 20. -/
def funnelOrderDF : DataFrame :=
  ⟨["stage", "val"], ["val"], [[.num 1, .num 10], [.num 2, .num 20]]⟩

/-- Two bubble rows whose size column `s` is constant at 5. -/
def constSizeDF : DataFrame :=
  ⟨["x", "y", "s"], ["x", "y", "s"],
   [[.num 1, .num 1, .num 5], [.num 2, .num 2, .num 5]]⟩

/-- One category `c = 1` with two subcategories whose values 1 and −1 sum
to zero — the hierarchical treemap's per-category zero total. -/
def hierZeroDF : DataFrame :=
  ⟨["c", "s", "v"], ["v"],
   [[.num 1, .num 1, .num 1], [.num 1, .num 2, .num (-1)]]⟩

/-! ### Supporting lemmas -/

section SupportingLemmas

theorem insertLe_perm {α : Type} (le : α → α → Bool) (x : α) (l : List α) :
    List.Perm (insertLe le x l) (x :: l) := by
  induction l with
  | nil => simp [insertLe]
  | cons y ys ih =>
    by_cases h : le x y
    · simp [insertLe, h]
    · simp only [insertLe, h, if_false]
      exact (ih.cons y).trans (List.Perm.swap x y ys)

theorem sortLe_perm {α : Type} (le : α → α → Bool) (l : List α) :
    List.Perm (sortLe le l) l := by
  induction l with
  | nil => simp [sortLe]
  | cons x xs ih => exact (insertLe_perm le x (sortLe le xs)).trans (ih.cons x)

theorem insertLe_pairwise {α : Type} (le : α → α → Bool)
    (htot : ∀ a b, le a b = true ∨ le b a = true)
    (htrans : ∀ a b c, le a b = true → le b c = true → le a c = true)
    (x : α) (l : List α) (h : l.Pairwise (fun a b => le a b = true)) :
    (insertLe le x l).Pairwise (fun a b => le a b = true) := by
  induction l with
  | nil => simp [insertLe]
  | cons y ys ih =>
    rcases h with _ | ⟨hy, hys⟩
    by_cases hxy : le x y = true
    · rw [insertLe, if_pos hxy]
      refine List.Pairwise.cons ?_ (List.Pairwise.cons hy hys)
      intro b hb
      rcases List.mem_cons.mp hb with rfl | hb
      · exact hxy
      · exact htrans x y b hxy (hy b hb)
    · rw [insertLe, if_neg hxy]
      refine List.Pairwise.cons ?_ (ih hys)
      intro b hb
      rcases List.mem_cons.mp (((insertLe_perm le x ys).mem_iff).mp hb) with hbx | hb
      · subst hbx
        rcases htot b y with h' | h'
        · exact absurd h' hxy
        · exact h'
      · exact hy b hb

theorem sortLe_pairwise {α : Type} (le : α → α → Bool)
    (htot : ∀ a b, le a b = true ∨ le b a = true)
    (htrans : ∀ a b c, le a b = true → le b c = true → le a c = true)
    (l : List α) : (sortLe le l).Pairwise (fun a b => le a b = true) := by
  induction l with
  | nil => exact List.Pairwise.nil
  | cons x xs ih => exact insertLe_pairwise le htot htrans x (sortLe le xs) ih

theorem scalarAsc_total (a b : Scalar) : scalarAsc a b = true ∨ scalarAsc b a = true := by
  cases a <;> cases b <;>
    first
      | exact Or.inl rfl
      | exact Or.inr rfl
      | (rename_i x y
         rcases le_total x y with h | h
         · exact Or.inl (by simp [scalarAsc, h])
         · exact Or.inr (by simp [scalarAsc, h]))

theorem scalarAsc_trans (a b c : Scalar) (hab : scalarAsc a b = true)
    (hbc : scalarAsc b c = true) : scalarAsc a c = true := by
  cases a <;> cases b <;> cases c <;>
    simp only [scalarAsc, scalarRank, decide_eq_true_eq] at hab hbc ⊢
  all_goals try omega
  all_goals exact hab.trans hbc

theorem descValLE_total (a b : Scalar) : descValLE a b = true ∨ descValLE b a = true := by
  unfold descValLE
  rcases a.nf with _ | x <;> rcases b.nf with _ | y
  · exact Or.inl rfl
  · exact Or.inr rfl
  · exact Or.inl rfl
  · rcases le_total x y with h | h
    · exact Or.inr (by simpa using h)
    · exact Or.inl (by simpa using h)

theorem descValLE_trans (a b c : Scalar) (hab : descValLE a b = true)
    (hbc : descValLE b c = true) : descValLE a c = true := by
  unfold descValLE at hab hbc ⊢
  generalize a.nf = na at hab ⊢
  generalize b.nf = nb at hab hbc
  generalize c.nf = nc at hbc ⊢
  rcases na with _ | x <;> rcases nb with _ | y <;> rcases nc with _ | z <;> simp_all
  all_goals exact le_trans hbc hab

theorem mem_firstDistinct {α : Type} [DecidableEq α] {a : α} :
    ∀ {l : List α}, a ∈ firstDistinct l ↔ a ∈ l := by
  intro l
  induction l with
  | nil => simp [firstDistinct]
  | cons x xs ih =>
    simp only [firstDistinct, List.mem_cons, List.mem_filter]
    constructor
    · rintro (rfl | ⟨h, _⟩)
      · exact Or.inl rfl
      · exact Or.inr (ih.mp h)
    · rintro (rfl | h)
      · exact Or.inl rfl
      · by_cases hx : a = x
        · exact Or.inl hx
        · exact Or.inr ⟨ih.mpr h, by simpa using hx⟩

theorem firstDistinct_nodup {α : Type} [DecidableEq α] :
    ∀ (l : List α), (firstDistinct l).Nodup := by
  intro l
  induction l with
  | nil => simp [firstDistinct]
  | cons x xs ih =>
    refine List.Pairwise.cons ?_ (List.Nodup.filter _ ih)
    intro b hb
    have := (List.mem_filter.mp hb).2
    simp only [ne_eq, decide_eq_true_eq] at this
    exact fun h => this h.symm

/-- `mapE` succeeds exactly pointwise. -/
theorem mapE_ok_forall₂ {α β : Type} (f : α → Except PyError β) :
    ∀ {l : List α} {out : List β}, mapE f l = Except.ok out →
      List.Forall₂ (fun x y => f x = Except.ok y) l out := by
  intro l
  induction l with
  | nil =>
    intro out h
    simp only [mapE] at h
    cases h
    exact List.Forall₂.nil
  | cons x xs ih =>
    intro out h
    simp only [mapE] at h
    cases hx : f x with
    | error e =>
      rw [hx] at h
      simp only [Bind.bind, Except.bind] at h
      cases h
    | ok y =>
      rw [hx] at h
      simp only [Bind.bind, Except.bind] at h
      cases hxs : mapE f xs with
      | error e =>
        rw [hxs] at h
        simp only [Functor.map, Except.map] at h
        cases h
      | ok ys =>
        rw [hxs] at h
        simp only [Functor.map, Except.map] at h
        cases h
        exact List.Forall₂.cons hx (ih hxs)

theorem exists_of_forall₂_mem_right {α β : Type} {R : α → β → Prop}
    {l : List α} {out : List β} (h : List.Forall₂ R l out) {y : β} (hy : y ∈ out) :
    ∃ x ∈ l, R x y := by
  induction h with
  | nil => cases hy
  | cons hR hrest ih =>
    rcases List.mem_cons.mp hy with rfl | hy
    · exact ⟨_, List.mem_cons_self _ _, hR⟩
    · rcases ih hy with ⟨x, hx, hxy⟩
      exact ⟨x, List.mem_cons_of_mem _ hx, hxy⟩

theorem bind_ok {α β : Type} (a : α) (f : α → Except PyError β) :
    (Except.ok a : Except PyError α) >>= f = f a := rfl

theorem bind_ok_inv {α β : Type} {x : Except PyError α} {f : α → Except PyError β}
    {b : β} (h : x >>= f = Except.ok b) :
    ∃ a, x = Except.ok a ∧ f a = Except.ok b := by
  cases x with
  | error e => exact absurd h (by simp [Bind.bind, Except.bind])
  | ok a => exact ⟨a, rfl, by simpa [Bind.bind, Except.bind] using h⟩

theorem map_ok_inv {α β : Type} {g : α → β} {x : Except PyError α} {b : β}
    (h : g <$> x = Except.ok b) : ∃ a, x = Except.ok a ∧ g a = b := by
  cases x with
  | error e => exact absurd h (by simp [Functor.map, Except.map])
  | ok a =>
    refine ⟨a, rfl, ?_⟩
    simpa [Functor.map, Except.map] using h

theorem toNums_map_num (l : List ℚ) : toNums (l.map Scalar.num) = Except.ok l := by
  induction l with
  | nil => rfl
  | cons x xs ih => simp [toNums, ih, Except.bind]

theorem filter_notNA_map_num (l : List ℚ) :
    (l.map Scalar.num).filter (fun v => ¬ v.isNA) = l.map Scalar.num := by
  induction l with
  | nil => rfl
  | cons x xs ih => simp [Scalar.isNA, ih]

theorem foldl_min_le_init (x : ℚ) : ∀ (xs : List ℚ), xs.foldl min x ≤ x := by
  intro xs
  induction xs generalizing x with
  | nil => exact le_refl x
  | cons y ys ih => exact le_trans (ih (min x y)) (min_le_left x y)

theorem foldl_min_le_mem (x : ℚ) {s : ℚ} :
    ∀ {xs : List ℚ}, s ∈ xs → xs.foldl min x ≤ s := by
  intro xs
  induction xs generalizing x with
  | nil => intro h; cases h
  | cons y ys ih =>
    intro h
    rcases List.mem_cons.mp h with rfl | h
    · exact le_trans (foldl_min_le_init (min x s) ys) (min_le_right x s)
    · exact ih (min x y) h

theorem init_le_foldl_max (x : ℚ) : ∀ (xs : List ℚ), x ≤ xs.foldl max x := by
  intro xs
  induction xs generalizing x with
  | nil => exact le_refl x
  | cons y ys ih => exact le_trans (le_max_left x y) (ih (max x y))

theorem mem_le_foldl_max (x : ℚ) {s : ℚ} :
    ∀ {xs : List ℚ}, s ∈ xs → s ≤ xs.foldl max x := by
  intro xs
  induction xs generalizing x with
  | nil => intro h; cases h
  | cons y ys ih =>
    intro h
    rcases List.mem_cons.mp h with rfl | h
    · exact le_trans (le_max_right x s) (init_le_foldl_max (max x s) ys)
    · exact ih (max x y) h

/-- Reading the single column of a `numDF` back. -/
theorem numDF_getCol (c : String) (vals : List ℚ) :
    (numDF c vals).getCol c = Except.ok (vals.map Scalar.num) := by
  simp only [numDF, DataFrame.getCol, DataFrame.colIdx, List.findIdx?]
  simp [bind_ok, List.map_map, Function.comp, pure, Except.pure]

theorem isNA_num (q : ℚ) : (Scalar.num q).isNA = false := rfl

theorem filterB_notNA_map_num (l : List ℚ) :
    (l.map Scalar.num).filter (fun v => !v.isNA) = l.map Scalar.num := by
  induction l with
  | nil => rfl
  | cons x xs ih => simp [isNA_num, ih]

theorem exists_of_forall₂_mem_left {α β : Type} {R : α → β → Prop}
    {l : List α} {out : List β} (h : List.Forall₂ R l out) {x : α} (hx : x ∈ l) :
    ∃ y ∈ out, R x y := by
  induction h with
  | nil => cases hx
  | cons hR hrest ih =>
    rcases List.mem_cons.mp hx with rfl | hx
    · exact ⟨_, List.mem_cons_self _ _, hR⟩
    · rcases ih hx with ⟨y, hy, hxy⟩
      exact ⟨y, List.mem_cons_of_mem _ hy, hxy⟩

theorem forall₂_map_snd_eq {α β : Type} {R : α → β → Prop} {l : List α}
    {out : List β} (h : List.Forall₂ R l out) (g : β → α)
    (hR : ∀ x y, R x y → g y = x) : out.map g = l := by
  induction h with
  | nil => rfl
  | cons hR' hrest ih => simp [hR _ _ hR', ih]

theorem toNums_ok_forall₂ :
    ∀ {xs : List Scalar} {ns : List ℚ}, toNums xs = Except.ok ns →
      List.Forall₂ (fun s q => s = Scalar.num q) xs ns := by
  intro xs
  induction xs with
  | nil =>
    intro ns h
    simp only [toNums, Except.ok.injEq] at h
    subst h
    exact List.Forall₂.nil
  | cons x xs ih =>
    intro ns h
    cases x with
    | num q =>
      simp only [toNums] at h
      cases hxs : toNums xs with
      | error e =>
        rw [hxs] at h
        simp [Bind.bind, Except.bind] at h
      | ok ms =>
        rw [hxs] at h
        simp only [Bind.bind, Except.bind, pure, Except.pure, Except.ok.injEq] at h
        subst h
        exact List.Forall₂.cons rfl (ih hxs)
    | str s => simp [toNums] at h
    | nan => simp [toNums] at h
    | none => simp [toNums] at h

/-- The first components of a `groupbyAgg` result are exactly the ascending
sorted distinct non-null keys. -/
theorem groupbyAgg_keys {ν : FloatOracle} {keys vals : List Scalar} {f : String}
    {grouped : List (Scalar × Scalar)} (h : groupbyAgg ν keys vals f = Except.ok grouped) :
    grouped.map Prod.fst =
      sortLe scalarAsc (firstDistinct (keys.filter (fun k => ¬ k.isNA))) := by
  unfold groupbyAgg at h
  refine forall₂_map_snd_eq (mapE_ok_forall₂ _ h) Prod.fst ?_
  intro k pr hk
  obtain ⟨r, hr, hpr⟩ := bind_ok_inv hk
  simp only [pure, Except.pure, Except.ok.injEq] at hpr
  rw [← hpr]

theorem get?_of_mem_enum {α : Type} {l : List α} {p : Nat × α} :
    p ∈ l.enum → l[p.1]? = Option.some p.2 := by
  intro h
  exact List.mem_enum_iff_getElem?.mp h

theorem foldl_min_const {q0 : ℚ} :
    ∀ {xs : List ℚ}, (∀ v ∈ xs, v = q0) → xs.foldl min q0 = q0 := by
  intro xs
  induction xs with
  | nil => intro _; rfl
  | cons y ys ih =>
    intro h
    have hy : y = q0 := h y (List.mem_cons_self _ _)
    subst hy
    simp only [List.foldl_cons, min_self]
    exact ih (fun v hv => h v (List.mem_cons_of_mem _ hv))

theorem foldl_max_const {q0 : ℚ} :
    ∀ {xs : List ℚ}, (∀ v ∈ xs, v = q0) → xs.foldl max q0 = q0 := by
  intro xs
  induction xs with
  | nil => intro _; rfl
  | cons y ys ih =>
    intro h
    have hy : y = q0 := h y (List.mem_cons_self _ _)
    subst hy
    simp only [List.foldl_cons, max_self]
    exact ih (fun v hv => h v (List.mem_cons_of_mem _ hv))

/-- Every normalized bubble size lies in the visual range `[10, 50]`. -/
theorem normalizeSizes_bounds (sizeNums : List ℚ) :
    ∀ q ∈ normalizeSizes sizeNums, 10 ≤ q ∧ q ≤ 50 := by
  intro q hq
  unfold normalizeSizes at hq
  cases sizeNums with
  | nil => simp at hq
  | cons s0 srest =>
    dsimp only at hq
    split at hq
    · rename_i hab
      obtain ⟨s, hs, rfl⟩ := List.mem_map.mp hq
      have ha : srest.foldl min s0 ≤ s := by
        rcases List.mem_cons.mp hs with rfl | hs
        · exact foldl_min_le_init s srest
        · exact foldl_min_le_mem s0 hs
      have hb : s ≤ srest.foldl max s0 := by
        rcases List.mem_cons.mp hs with rfl | hs
        · exact init_le_foldl_max s srest
        · exact mem_le_foldl_max s0 hs
      set a := srest.foldl min s0
      set b := srest.foldl max s0
      have hpos : 0 < b - a := sub_pos.mpr hab
      have h0 : 0 ≤ (s - a) / (b - a) := div_nonneg (sub_nonneg.mpr ha) (le_of_lt hpos)
      have h1 : (s - a) / (b - a) ≤ 1 := (div_le_one hpos).mpr (sub_le_sub_right hb a)
      have hassoc : 40 * (s - a) / (b - a) = 40 * ((s - a) / (b - a)) := by ring
      constructor
      · rw [hassoc]; linarith
      · rw [hassoc]; linarith
    · rcases List.eq_of_mem_replicate hq with rfl
      norm_num

/-- A constant size column is normalized to the constant list of 25s. -/
theorem normalizeSizes_const {q0 : ℚ} {sizeNums : List ℚ}
    (h : ∀ v ∈ sizeNums, v = q0) :
    normalizeSizes sizeNums = List.replicate sizeNums.length 25 := by
  unfold normalizeSizes
  cases sizeNums with
  | nil => rfl
  | cons s0 srest =>
    have hs0 : s0 = q0 := h s0 (List.mem_cons_self _ _)
    have hrest : ∀ v ∈ srest, v = q0 := fun v hv => h v (List.mem_cons_of_mem _ hv)
    subst hs0
    dsimp only
    rw [foldl_min_const hrest, foldl_max_const hrest]
    simp

/-- Inverting one successful bubble-row build: the positional size lookup
succeeded, the original-size cell converted to a float, and the record's
`size` and `original_size` fields carry exactly those values. -/
theorem bubbleRow_ok_inv {normalized : List ℚ} {color_col : Option String}
    {hasColor : Bool} {p : Nat × List Scalar} {r : Rec}
    (h : bubbleRow normalized color_col hasColor p = Except.ok r) :
    ∃ sz ov, normalized.get? p.1 = Option.some sz ∧
      (p.2.getD 2 Scalar.none).toFloat = Except.ok ov ∧
      r.lookup "size" = Option.some (vnum sz) ∧
      r.lookup "original_size" = Option.some (sv ov.toScalar) := by
  unfold bubbleRow at h
  dsimp only at h
  obtain ⟨xv, hxv, h⟩ := bind_ok_inv h
  obtain ⟨yv, hyv, h⟩ := bind_ok_inv h
  cases hg : normalized.get? p.1 with
  | none =>
    rw [hg] at h
    dsimp only at h
    simp [Bind.bind, Except.bind] at h
  | some sz =>
    rw [hg] at h
    dsimp only at h
    rw [bind_ok] at h
    obtain ⟨ov, hov, h⟩ := bind_ok_inv h
    refine ⟨sz, ov, rfl, hov, ?_⟩
    split at h
    · split at h
      · simp only [pure, Except.pure, Except.ok.injEq] at h
        subst h
        exact ⟨by simp [List.lookup], by simp [List.lookup]⟩
      · simp [throw, throwThe, MonadExceptOf.throw] at h
    · simp only [pure, Except.pure, Except.ok.injEq] at h
      subst h
      exact ⟨by simp [List.lookup], by simp [List.lookup]⟩

/-- One waterfall step succeeds exactly on a numeric cell and appends the
record of the running total. -/
theorem waterfallStep_ok_inv {acc : List Rec × ℚ} {p : Nat × List Scalar}
    {res : List Rec × ℚ} (h : waterfallStep acc p = Except.ok res) :
    ∃ q, p.2.getD 1 Scalar.none = Scalar.num q ∧
      res = (acc.1 ++
        [[("category", vstr (p.2.getD 0 Scalar.none).pyStr), ("value", vnum q),
          ("cumulative", vnum (acc.2 + q)), ("start", vnum acc.2),
          ("end", vnum (acc.2 + q))]], acc.2 + q) := by
  unfold waterfallStep at h
  cases hcell : p.2.getD 1 Scalar.none with
  | num q =>
    rw [hcell] at h
    dsimp only at h
    rw [bind_ok] at h
    refine ⟨q, rfl, ?_⟩
    simpa [pure, Except.pure] using h.symm
  | str s =>
    rw [hcell] at h
    dsimp only at h
    simp [Bind.bind, Except.bind] at h
  | nan =>
    rw [hcell] at h
    dsimp only at h
    simp [Bind.bind, Except.bind] at h
  | none =>
    rw [hcell] at h
    dsimp only at h
    simp [Bind.bind, Except.bind] at h

/-- Invariants of the waterfall fold: every produced record has the
`end = start + value` / `cumulative = end` shape, the running total adds the
numeric cell values in row order, categories appear in row order, and the
last record carries the final total. -/
theorem waterfall_foldlM (kept : List (Nat × List Scalar)) :
    ∀ (acc res : List Rec × ℚ), kept.foldlM waterfallStep acc = Except.ok res →
      (∀ r ∈ res.1, r ∈ acc.1 ∨ ∃ cat s val,
        r = [("category", vstr cat), ("value", vnum val), ("cumulative", vnum (s + val)),
             ("start", vnum s), ("end", vnum (s + val))]) ∧
      (∃ qs : List ℚ, kept.map (fun t => t.2.getD 1 Scalar.none) = qs.map Scalar.num ∧
        res.2 = acc.2 + qs.sum) ∧
      (res.1.map (fun r => r.lookup "category") =
        acc.1.map (fun r => r.lookup "category") ++
        kept.map (fun t => Option.some (vstr (t.2.getD 0 Scalar.none).pyStr))) ∧
      ((∀ r, acc.1.getLast? = Option.some r →
          r.lookup "end" = Option.some (vnum acc.2) ∧
          r.lookup "cumulative" = Option.some (vnum acc.2)) →
        ∀ r, res.1.getLast? = Option.some r →
          r.lookup "end" = Option.some (vnum res.2) ∧
          r.lookup "cumulative" = Option.some (vnum res.2)) := by
  induction kept with
  | nil =>
    intro acc res h
    simp only [List.foldlM, pure, Except.pure, Except.ok.injEq] at h
    subst h
    refine ⟨fun r hr => Or.inl hr, ⟨[], by simp⟩, by simp, fun hinv => hinv⟩
  | cons p rest ih =>
    intro acc res h
    simp only [List.foldlM] at h
    obtain ⟨acc', hstep, h⟩ := bind_ok_inv h
    obtain ⟨q, hcell, rfl⟩ := waterfallStep_ok_inv hstep
    obtain ⟨ha, ⟨qs, hqs, hsum⟩, hcat, hlast⟩ := ih _ res h
    refine ⟨?_, ⟨q :: qs, ?_, ?_⟩, ?_, ?_⟩
    · intro r hr
      rcases ha r hr with hmem | hshape
      · rcases List.mem_append.mp hmem with hmem | hmem
        · exact Or.inl hmem
        · rcases List.mem_singleton.mp hmem with rfl
          exact Or.inr ⟨(p.2.getD 0 Scalar.none).pyStr, acc.2, q, rfl⟩
      · exact Or.inr hshape
    · rw [List.map_cons, List.map_cons, hcell, hqs]
    · simp only [hsum, List.sum_cons]
      ring
    · rw [hcat]
      simp [List.lookup]
    · intro hinv
      refine hlast ?_
      intro r hr
      rw [List.getLast?_concat] at hr
      cases hr
      constructor <;> simp [List.lookup]

end SupportingLemmas

/-! ### The claims -/

section Claims

attribute [local semireducible] Rat.add Rat.sub Rat.mul Rat.inv

/-- **C1.** For a dataset whose column `region` holds "east","east","west", a
bar-chart request with no `y_axis` and the default aggregation returns
exactly two records — east with count 2, then west with count 1 — and the
synthetic value column in the output records is named `count`. -/
theorem claim_C1_bar_value_counts (ν : FloatOracle) :
    generate_bar_data ν regionDF { x_axis := Option.some "region" } =
      Except.ok ⟨[[("region", sv (.str "east")), ("count", vnum 2)],
                  [("region", sv (.str "west")), ("count", vnum 1)]],
        [("x_column", vstr "region"), ("y_column", vstr "count"),
         ("aggregation", vstr "sum"), ("total_points", vnum 2)]⟩ := rfl

/-- **C2 counterexample.** A density request over the values {0, 10} with
`bandwidth` unspecified runs its KDE with bandwidth 1/10 (reported in the
payload metadata), while the claimed default `(max - min)/20` is 1/2. -/
theorem claim_C2_counterexample :
    (generate_density_data idOracle (numDF "price" [0, 10])
        { x_axis := Option.some "price" }).map
      (fun p => p.metadata.lookup "bandwidth") =
        Except.ok (Option.some (vnum (1/10))) ∧
    ((1 : ℚ)/10) ≠ ((10 : ℚ) - 0)/20 :=
  ⟨rfl, by norm_num⟩

/-- **C2 amended.** With `bandwidth` unspecified, the violin builder runs
its KDE with bandwidth `(max - min)/20` over the observed values, while the
density builder — and the ridgeline builder delegating to it — uses the
fixed constant `0.1` regardless of the data range (all three report the
bandwidth they used in the payload metadata). -/
theorem claim_C2_amended_default_bandwidth (ν : FloatOracle) (c : String)
    (hc : c ≠ "") (v0 : ℚ) (vs : List ℚ) :
    (generate_violin_data ν (numDF c (v0 :: vs)) { y_axis := Option.some c }).map
        (fun p => p.metadata.lookup "bandwidth") =
      Except.ok (Option.some (vnum ((vs.foldl max v0 - vs.foldl min v0) / 20))) ∧
    (generate_density_data ν (numDF c (v0 :: vs)) { x_axis := Option.some c }).map
        (fun p => p.metadata.lookup "bandwidth") =
      Except.ok (Option.some (vnum (1/10))) ∧
    (generate_ridgeline_data ν (numDF c (v0 :: vs)) { x_axis := Option.some c }).map
        (fun p => p.metadata.lookup "bandwidth") =
      Except.ok (Option.some (vnum (1/10))) := by
  refine ⟨?_, ?_, ?_⟩
  · simp [generate_violin_data, strTruthy, hc, numDF_getCol, bind_ok, isNA_num,
      filterB_notNA_map_num, toNums, toNums_map_num, pure, Except.pure, numOr,
      Except.map, Functor.map, List.lookup]
  · simp [generate_density_data, strTruthy, hc, numDF_getCol, bind_ok, isNA_num,
      filterB_notNA_map_num, toNums, toNums_map_num, pure, Except.pure, numOr,
      Except.map, Functor.map, List.lookup]
  · simp [generate_ridgeline_data, generate_density_data, strTruthy, hc, numDF_getCol,
      bind_ok, isNA_num, filterB_notNA_map_num, toNums, toNums_map_num, pure, Except.pure,
      numOr, Except.map, Functor.map, List.lookup, Rec.set]

/-- Witness for the C2 amended theorem: values {0, 10}, violin bandwidth
1/2, density and ridgeline bandwidth 1/10. -/
theorem claim_C2_amended_default_bandwidth_witness :
    (generate_violin_data idOracle (numDF "price" [0, 10])
        { y_axis := Option.some "price" }).map
      (fun p => p.metadata.lookup "bandwidth") =
      Except.ok (Option.some (vnum (([(10 : ℚ)].foldl max 0 - [(10 : ℚ)].foldl min 0) / 20))) ∧
    (generate_density_data idOracle (numDF "price" [0, 10])
        { x_axis := Option.some "price" }).map
      (fun p => p.metadata.lookup "bandwidth") =
      Except.ok (Option.some (vnum (1/10))) :=
  ⟨(claim_C2_amended_default_bandwidth idOracle "price" (by decide) 0 [10]).1,
   (claim_C2_amended_default_bandwidth idOracle "price" (by decide) 0 [10]).2.1⟩

/-- **C3.** On a non-empty numeric column whose values are all equal — so
that the default violin bandwidth `(max - min)/20` is zero — neither the
violin nor the density builder raises: both return a payload (the
degenerate density samples are non-finite NumPy floats, not exceptions). -/
theorem claim_C3_no_arithmetic_fault (ν : FloatOracle) (c : String) (hc : c ≠ "")
    (v0 : ℚ) (vs : List ℚ) (_hconst : ∀ v ∈ vs, v = v0) :
    (generate_violin_data ν (numDF c (v0 :: vs)) { y_axis := Option.some c }).isOk = true ∧
    (generate_density_data ν (numDF c (v0 :: vs)) { x_axis := Option.some c }).isOk = true := by
  refine ⟨?_, ?_⟩
  · simp [generate_violin_data, strTruthy, hc, numDF_getCol, bind_ok, isNA_num,
      filterB_notNA_map_num, toNums, toNums_map_num, pure, Except.pure, Except.isOk,
      Except.toBool]
  · simp [generate_density_data, strTruthy, hc, numDF_getCol, bind_ok, isNA_num,
      filterB_notNA_map_num, toNums, toNums_map_num, pure, Except.pure, Except.isOk,
      Except.toBool]

/-- Witness for C3: the constant column {5, 5}. -/
theorem claim_C3_no_arithmetic_fault_witness :
    (generate_violin_data idOracle (numDF "v" [5, 5])
      { y_axis := Option.some "v" }).isOk = true ∧
    (generate_density_data idOracle (numDF "v" [5, 5])
      { x_axis := Option.some "v" }).isOk = true :=
  claim_C3_no_arithmetic_fault idOracle "v" (by decide) 5 [5] (by decide)

/-- **C4 counterexample.** A constant size column: the bubble builder gives
every record the fixed size 25 — not the midpoint (10 + 50) / 2 = 30 of the
visual range [10, 50]. -/
theorem claim_C4_counterexample :
    (generate_bubble_data constSizeDF
        { x_axis := Option.some "x", y_axis := Option.some "y",
          size_by := Option.some "s" }).map
      (fun p => p.data.map (fun r => r.lookup "size")) =
      Except.ok [Option.some (vnum 25), Option.some (vnum 25)] ∧
    (25 : ℚ) ≠ (10 + 50) / 2 :=
  ⟨rfl, by norm_num⟩

/-- **C4 amended.** Every record of a successful bubble payload carries a
`size` in the visual range [10, 50]; and whenever the `original_size`
column is constant across the output records, every record's `size` is the
fixed constant 25 — the value the code substitutes instead of dividing by
the zero range, not the range midpoint 30. -/
theorem claim_C4_amended_bubble_sizes (df : DataFrame) (params : ChartParameters)
    (p : Payload) (h : generate_bubble_data df params = Except.ok p) :
    (∀ r ∈ p.data, ∃ q : ℚ, r.lookup "size" = Option.some (vnum q) ∧
        10 ≤ q ∧ q ≤ 50) ∧
    (∀ q0 : ℚ,
      (∀ r ∈ p.data, r.lookup "original_size" = Option.some (vnum q0)) →
      ∀ r ∈ p.data, r.lookup "size" = Option.some (vnum 25)) := by
  unfold generate_bubble_data at h
  dsimp only at h
  split at h
  · simp [throw, throwThe, MonadExceptOf.throw, Bind.bind, Except.bind] at h
  · rw [show (pure PUnit.unit : Except PyError PUnit) = Except.ok PUnit.unit from rfl,
      bind_ok] at h
    obtain ⟨rows, hrows, h⟩ := bind_ok_inv h
    obtain ⟨sizeNums, hnums, h⟩ := bind_ok_inv h
    obtain ⟨recs, hrecs, h⟩ := bind_ok_inv h
    simp only [pure, Except.pure, Except.ok.injEq] at h
    subst h
    have hF := mapE_ok_forall₂ _ hrecs
    constructor
    · intro r hr
      obtain ⟨row, hrow, hok⟩ := exists_of_forall₂_mem_right hF hr
      obtain ⟨sz, ov, hget, hov, hls, hlo⟩ := bubbleRow_ok_inv hok
      have hmem : sz ∈ normalizeSizes sizeNums := List.get?_mem hget
      obtain ⟨h10, h50⟩ := normalizeSizes_bounds sizeNums sz hmem
      exact ⟨sz, hls, h10, h50⟩
    · intro q0 hq0 r hr
      have hall : ∀ v ∈ sizeNums, v = q0 := by
        intro v hv
        obtain ⟨cell, hcell, hceq⟩ :=
          exists_of_forall₂_mem_right (toNums_ok_forall₂ hnums) hv
        obtain ⟨row, hrow, hrowc⟩ := List.mem_map.mp hcell
        obtain ⟨r', hr', hok'⟩ := exists_of_forall₂_mem_left hF hrow
        obtain ⟨sz', ov', hget', hov', hls', hlo'⟩ := bubbleRow_ok_inv hok'
        rw [hrowc, hceq] at hov'
        simp only [Scalar.toFloat, Except.ok.injEq] at hov'
        have hq := hq0 r' hr'
        rw [hlo'] at hq
        rw [← hov'] at hq
        simp only [NF.toScalar, sv, vnum, Option.some.injEq, PyVal.scalar.injEq,
          Scalar.num.injEq] at hq
        exact hq
      obtain ⟨row, hrow, hok⟩ := exists_of_forall₂_mem_right hF hr
      obtain ⟨sz, ov, hget, hov, hls, hlo⟩ := bubbleRow_ok_inv hok
      rw [normalizeSizes_const hall] at hget
      have hmem : sz ∈ List.replicate sizeNums.length (25 : ℚ) := List.get?_mem hget
      rw [List.eq_of_mem_replicate hmem] at hls
      exact hls

/-- Witness for the C4 amended theorem at `constSizeDF`. -/
theorem claim_C4_amended_bubble_sizes_witness :
    (∀ r ∈ ([[("x", sv (.num 1)), ("y", sv (.num 1)), ("size", vnum 25),
              ("original_size", sv (.num 5))],
             [("x", sv (.num 2)), ("y", sv (.num 2)), ("size", vnum 25),
              ("original_size", sv (.num 5))]] : List Rec),
      ∃ q : ℚ, r.lookup "size" = Option.some (vnum q) ∧ 10 ≤ q ∧ q ≤ 50) ∧
    (∀ q0 : ℚ,
      (∀ r ∈ ([[("x", sv (.num 1)), ("y", sv (.num 1)), ("size", vnum 25),
                ("original_size", sv (.num 5))],
               [("x", sv (.num 2)), ("y", sv (.num 2)), ("size", vnum 25),
                ("original_size", sv (.num 5))]] : List Rec),
        r.lookup "original_size" = Option.some (vnum q0)) →
      ∀ r ∈ ([[("x", sv (.num 1)), ("y", sv (.num 1)), ("size", vnum 25),
               ("original_size", sv (.num 5))],
              [("x", sv (.num 2)), ("y", sv (.num 2)), ("size", vnum 25),
               ("original_size", sv (.num 5))]] : List Rec),
        r.lookup "size" = Option.some (vnum 25)) :=
  claim_C4_amended_bubble_sizes constSizeDF
    { x_axis := Option.some "x", y_axis := Option.some "y",
      size_by := Option.some "s" }
    ⟨[[("x", sv (.num 1)), ("y", sv (.num 1)), ("size", vnum 25),
       ("original_size", sv (.num 5))],
      [("x", sv (.num 2)), ("y", sv (.num 2)), ("size", vnum 25),
       ("original_size", sv (.num 5))]],
     [("x_column", vstr "x"), ("y_column", vstr "y"), ("size_column", vstr "s"),
      ("color_column", PyVal.scalar .none), ("total_points", vnum 2),
      ("size_range", PyVal.dict [("min", sv (.num 5)), ("max", sv (.num 5))])]⟩
    (by rfl)

/-- **C5 counterexample.** Keys encountered in the order 2, 1 come out of
the bar builder (with `sort_by` unset) in the order 1, 2 — the pandas
`groupby` ascending key order, not the first-encountered order. -/
theorem claim_C5_counterexample :
    (generate_bar_data idOracle keyOrderDF
        { x_axis := Option.some "k", y_axis := Option.some "v" }).map
      (fun p => p.data.map (fun r => r.lookup "k")) =
      Except.ok [Option.some (sv (.num 1)), Option.some (sv (.num 2))] ∧
    firstDistinct ([Scalar.num 2, Scalar.num 1].filter (fun k => ¬ k.isNA)) =
      [Scalar.num 2, Scalar.num 1] ∧
    ([Option.some (sv (.num 1)), Option.some (sv (.num 2))] : List (Option PyVal)) ≠
      [Option.some (sv (.num 2)), Option.some (sv (.num 1))] := by
  refine ⟨rfl, rfl, ?_⟩
  simp only [ne_eq, List.cons.injEq, Option.some.injEq, sv, PyVal.scalar.injEq,
    Scalar.num.injEq, and_true, not_and]
  intro h
  norm_num at h

/-- **C5 amended.** With `sort_by` never consulted, group-reduce output rows
appear in ascending sorted order of the distinct non-null keys (the pandas
`groupby`/`pivot_table` default), not in first-encountered order: the bar
builder's key column is sorted ascending, duplicate-free and complete, and
both key lists of any pivot table are likewise ascending. -/
theorem claim_C5_amended_sorted_keys (ν : FloatOracle) (df : DataFrame)
    (params : ChartParameters) (p : Payload) :
    (strTruthy params.y_axis = true →
      generate_bar_data ν df params = Except.ok p →
      ∃ (xs ks : List Scalar),
        df.getCol (params.x_axis.getD "") = Except.ok xs ∧
        p.data.map (fun r => r.lookup (params.x_axis.getD "")) =
          ks.map (fun k => Option.some (sv k)) ∧
        ks.Pairwise (fun a b => scalarAsc a b = true) ∧
        ks.Nodup ∧
        (∀ k, k ∈ ks ↔ k ∈ xs ∧ k.isNA = false)) ∧
    (∀ (idxs cols vals : List Scalar) (f : String)
        (out : List Scalar × List Scalar × List (List Scalar)),
      pivotTable ν idxs cols vals f = Except.ok out →
        out.1.Pairwise (fun a b => scalarAsc a b = true) ∧
        out.2.1.Pairwise (fun a b => scalarAsc a b = true)) := by
  constructor
  · intro hy h
    unfold generate_bar_data at h
    dsimp only at h
    split at h
    · simp [throw, throwThe, MonadExceptOf.throw, Bind.bind, Except.bind] at h
    · rw [show (pure PUnit.unit : Except PyError PUnit) = Except.ok PUnit.unit from rfl,
        bind_ok] at h
      obtain ⟨xs, hxs, h⟩ := bind_ok_inv h
      obtain ⟨ys, hys, h⟩ := bind_ok_inv h
      split at h <;> (try split at h) <;> (try split at h)
      all_goals
        obtain ⟨grouped, hg, h⟩ := bind_ok_inv h
        have hkeys := groupbyAgg_keys hg
        simp only [pure, Except.pure, Except.ok.injEq] at h
        subst h
        refine ⟨xs, grouped.map Prod.fst, hxs, ?_, ?_, ?_, ?_⟩
        · simp [List.lookup, List.map_map, Function.comp_def]
        · rw [hkeys]
          exact sortLe_pairwise _ scalarAsc_total scalarAsc_trans _
        · rw [hkeys]
          exact (sortLe_perm _ _).symm.nodup (firstDistinct_nodup _)
        · intro k
          rw [hkeys, (sortLe_perm _ _).mem_iff, mem_firstDistinct, List.mem_filter]
          simp
  · intro idxs cols vals f out hpiv
    unfold pivotTable at hpiv
    dsimp only at hpiv
    obtain ⟨cells, hcells, hout⟩ := bind_ok_inv hpiv
    simp only [pure, Except.pure, Except.ok.injEq] at hout
    subst hout
    exact ⟨sortLe_pairwise _ scalarAsc_total scalarAsc_trans _,
      sortLe_pairwise _ scalarAsc_total scalarAsc_trans _⟩

/-- Witness for the C5 amended theorem at `keyOrderDF`. -/
theorem claim_C5_amended_sorted_keys_witness :
    ∃ (xs ks : List Scalar),
      keyOrderDF.getCol "k" = Except.ok xs ∧
      ([[("k", sv (.num 1)), ("v", sv (.num 2))],
        [("k", sv (.num 2)), ("v", sv (.num 1))]] : List Rec).map
          (fun r => r.lookup "k") = ks.map (fun k => Option.some (sv k)) ∧
      ks.Pairwise (fun a b => scalarAsc a b = true) ∧
      ks.Nodup ∧
      (∀ k, k ∈ ks ↔ k ∈ xs ∧ k.isNA = false) :=
  (claim_C5_amended_sorted_keys idOracle keyOrderDF
    { x_axis := Option.some "k", y_axis := Option.some "v" }
    ⟨[[("k", sv (.num 1)), ("v", sv (.num 2))],
      [("k", sv (.num 2)), ("v", sv (.num 1))]],
     [("x_column", vstr "k"), ("y_column", vstr "v"),
      ("aggregation", vstr "sum"), ("total_points", vnum 2)]⟩).1 (by rfl) (by rfl)

/-- **C6 counterexample.** Two stages with values 10 and 20: the descending
output starts with the stage of value 20, but its `order` field is 1 — its
row label in the pre-sort ascending grouped table — not its position 0 in
the descending order. -/
theorem claim_C6_counterexample :
    (generate_funnel_data idOracle funnelOrderDF
        { x_axis := Option.some "stage", y_axis := Option.some "val" }).map
      (fun p => p.data.map (fun r => (r.lookup "stage", r.lookup "order"))) =
      Except.ok [(Option.some (vstr "2"), Option.some (vnum 1)),
                 (Option.some (vstr "1"), Option.some (vnum 0))] ∧
    (Option.some (vnum 1) : Option PyVal) ≠ Option.some (vnum 0) := by
  refine ⟨rfl, ?_⟩
  simp only [ne_eq, Option.some.injEq, vnum, sv, PyVal.scalar.injEq, Scalar.num.injEq]
  norm_num

/-- **C6 amended.** Funnel records are sorted in descending order of their
reduced value, but each record's `order` field is its row index in the
pre-sort grouped table (ascending key order, the `reset_index` labels
yielded by `iterrows`), not its position in the descending output. -/
theorem claim_C6_amended_funnel_order (ν : FloatOracle) (df : DataFrame)
    (params : ChartParameters) (p : Payload)
    (h : generate_funnel_data ν df params = Except.ok p) :
    ∃ (ss vs : List Scalar) (grouped : List (Scalar × Scalar))
      (ts : List (Nat × Scalar × Scalar)),
      df.getCol (params.x_axis.getD "") = Except.ok ss ∧
      df.getCol (params.y_axis.getD "") = Except.ok vs ∧
      groupbyAgg ν ss vs (strOr params.aggregation "sum") = Except.ok grouped ∧
      ts.Pairwise (fun a b => descValLE a.2.2 b.2.2 = true) ∧
      (∀ t ∈ ts, grouped[t.1]? = Option.some t.2) ∧
      p.data.map (fun r => (r.lookup "stage", r.lookup "value", r.lookup "order")) =
        ts.map (fun t => (Option.some (vstr t.2.1.pyStr), Option.some (sv t.2.2),
          Option.some (vnum (t.1 : ℚ)))) := by
  unfold generate_funnel_data at h
  dsimp only at h
  split at h
  · simp [throw, throwThe, MonadExceptOf.throw, Bind.bind, Except.bind] at h
  · rw [show (pure PUnit.unit : Except PyError PUnit) = Except.ok PUnit.unit from rfl,
      bind_ok] at h
    obtain ⟨ss, hss, h⟩ := bind_ok_inv h
    obtain ⟨vs, hvs, h⟩ := bind_ok_inv h
    obtain ⟨grouped, hg, h⟩ := bind_ok_inv h
    simp only [pure, Except.pure, Except.ok.injEq] at h
    subst h
    refine ⟨ss, vs, grouped, sortLe (fun a b => descValLE a.2.2 b.2.2) grouped.enum,
      hss, hvs, hg, ?_, ?_, ?_⟩
    · exact sortLe_pairwise _
        (fun (a b : Nat × Scalar × Scalar) => descValLE_total a.2.2 b.2.2)
        (fun (a b c : Nat × Scalar × Scalar) hab hbc =>
          descValLE_trans a.2.2 b.2.2 c.2.2 hab hbc) _
    · intro t ht
      exact get?_of_mem_enum ((sortLe_perm _ _).mem_iff.mp ht)
    · simp [List.lookup, List.map_map, Function.comp_def]

/-- Witness for the C6 amended theorem at `funnelOrderDF`. -/
theorem claim_C6_amended_funnel_order_witness :
    ∃ (ss vs : List Scalar) (grouped : List (Scalar × Scalar))
      (ts : List (Nat × Scalar × Scalar)),
      funnelOrderDF.getCol "stage" = Except.ok ss ∧
      funnelOrderDF.getCol "val" = Except.ok vs ∧
      groupbyAgg idOracle ss vs "sum" = Except.ok grouped ∧
      ts.Pairwise (fun a b => descValLE a.2.2 b.2.2 = true) ∧
      (∀ t ∈ ts, grouped[t.1]? = Option.some t.2) ∧
      ([[("stage", vstr "2"), ("value", sv (.num 20)),
         ("percentage", sv (.num (200/3))), ("order", vnum 1)],
        [("stage", vstr "1"), ("value", sv (.num 10)),
         ("percentage", sv (.num (100/3))), ("order", vnum 0)]] : List Rec).map
          (fun r => (r.lookup "stage", r.lookup "value", r.lookup "order")) =
        ts.map (fun t => (Option.some (vstr t.2.1.pyStr), Option.some (sv t.2.2),
          Option.some (vnum (t.1 : ℚ)))) :=
  claim_C6_amended_funnel_order idOracle funnelOrderDF
    { x_axis := Option.some "stage", y_axis := Option.some "val" }
    ⟨[[("stage", vstr "2"), ("value", sv (.num 20)),
       ("percentage", sv (.num (200/3))), ("order", vnum 1)],
      [("stage", vstr "1"), ("value", sv (.num 10)),
       ("percentage", sv (.num (100/3))), ("order", vnum 0)]],
     [("stage_column", vstr "stage"), ("value_column", vstr "val"),
      ("total_stages", vnum 2), ("total_value", vnum 30)]⟩ (by rfl)

/-- **C7 counterexample.** The failure for a chart type with no dispatch
branch is a plain wrapped `ValueError` — the same exception kind the engine
uses for a generic failure (here, a bar request missing `x_axis`) — not a
distinct `UnsupportedChartType` error. -/
theorem claim_C7_counterexample :
    get_chart_data idOracle [("f", regionDF)] "f" "spider" {} =
      Except.error (PyError.valueError
        "Error generating chart data: Chart type spider not implemented") ∧
    get_chart_data idOracle [("f", regionDF)] "f" "bar" {} =
      Except.error (PyError.valueError
        "Error generating chart data: x_axis is required for bar charts") ∧
    (PyError.valueError
        "Error generating chart data: Chart type spider not implemented").kind =
      (PyError.valueError
        "Error generating chart data: x_axis is required for bar charts").kind :=
  ⟨rfl, rfl, rfl⟩

/-- **C7 amended.** A chart type outside the dispatch chain fails with the
generic wrapped `ValueError` naming it as not implemented — raised in the
dispatch fallback before any builder runs, so no payload is produced — not
with a distinct `UnsupportedChartType` error kind (the engine raises
`ValueError` for every failure). -/
theorem claim_C7_amended_unsupported_type (ν : FloatOracle)
    (storage : List (String × DataFrame)) (fid t : String) (df : DataFrame)
    (params : ChartParameters) (hdf : storage.lookup fid = Option.some df)
    (ht : t ∉ handledChartTypes) :
    get_chart_data ν storage fid t params =
      Except.error (PyError.valueError
        ("Error generating chart data: " ++ ("Chart type " ++ t ++ " not implemented"))) := by
  have h := ht
  simp only [handledChartTypes, List.mem_cons, List.not_mem_nil, or_false, not_or] at h
  simp [get_chart_data, hdf, h, PyError.str]

/-- Witness for the C7 amended theorem at the chart type "spider". -/
theorem claim_C7_amended_unsupported_type_witness :
    get_chart_data idOracle [("f", regionDF)] "f" "spider" {} =
      Except.error (PyError.valueError
        "Error generating chart data: Chart type spider not implemented") :=
  claim_C7_amended_unsupported_type idOracle [("f", regionDF)] "f" "spider" regionDF {}
    (by rfl) (by decide)

/-- **C8.** A zero reduced total makes every percentage in the output zero
rather than a fault: in the funnel builder a payload whose metadata
`total_value` is 0 has every record's `percentage` equal to 0; in the
treemap builder without a subcategory (the sunburst builder delegates
here) a payload whose reduced values sum to 0 likewise has every
`percentage` equal to 0; and in any treemap payload, every record whose
category `value` (the per-category total, the hierarchical path's
denominator) is 0 has every child's `percentage` equal to 0. -/
theorem claim_C8_zero_total_percentages (ν : FloatOracle) (df : DataFrame)
    (params : ChartParameters) (p : Payload) :
    (generate_funnel_data ν df params = Except.ok p →
      p.metadata.lookup "total_value" = Option.some (vnum 0) →
      ∀ r ∈ p.data, r.lookup "percentage" = Option.some (vnum 0)) ∧
    (params.color_by = Option.none →
      generate_treemap_data ν df params = Except.ok p →
      (p.data.filterMap recValNF).sum = 0 →
      ∀ r ∈ p.data, r.lookup "percentage" = Option.some (vnum 0)) ∧
    (generate_treemap_data ν df params = Except.ok p →
      ∀ r ∈ p.data, r.lookup "value" = Option.some (vnum 0) →
      ∀ ch, r.lookup "children" = Option.some (PyVal.list ch) →
      ∀ c ∈ ch, ∃ d, c = PyVal.dict d ∧
        d.lookup "percentage" = Option.some (vnum 0)) := by
  refine ⟨?_, ?_, ?_⟩
  · intro h htot
    unfold generate_funnel_data at h
    dsimp only at h
    split at h
    · simp [throw, throwThe, MonadExceptOf.throw, Bind.bind, Except.bind] at h
    · rw [show (pure PUnit.unit : Except PyError PUnit) = Except.ok PUnit.unit from rfl,
        bind_ok] at h
      obtain ⟨ss, hss, h⟩ := bind_ok_inv h
      obtain ⟨vs, hvs, h⟩ := bind_ok_inv h
      obtain ⟨grouped, hg, h⟩ := bind_ok_inv h
      simp only [pure, Except.pure, Except.ok.injEq] at h
      subst h
      simp [List.lookup, vnum, sv] at htot
      intro r hr
      obtain ⟨t, ht, rfl⟩ := List.mem_map.mp hr
      simp [List.lookup, htot]
  · intro hcol h hsum
    unfold generate_treemap_data at h
    dsimp only at h
    split at h
    · simp [throw, throwThe, MonadExceptOf.throw, Bind.bind, Except.bind] at h
    · rw [show (pure PUnit.unit : Except PyError PUnit) = Except.ok PUnit.unit from rfl,
        bind_ok] at h
      rw [hcol] at h
      simp only [strTruthy, Bool.false_eq_true, false_and, if_false] at h
      obtain ⟨cs, hcs, h⟩ := bind_ok_inv h
      obtain ⟨vs, hvs, h⟩ := bind_ok_inv h
      obtain ⟨grouped, hg, h⟩ := bind_ok_inv h
      simp only [pure, Except.pure, Except.ok.injEq] at h
      subst h
      simp [recValNF, List.filterMap_map, List.lookup, vnum, sv, Function.comp_def] at hsum
      intro r hr
      obtain ⟨t, ht, rfl⟩ := List.mem_map.mp hr
      simp [List.lookup, Function.comp_def, hsum]
  · intro h r hr hval ch hch c hc
    unfold generate_treemap_data at h
    dsimp only at h
    split at h
    · simp [throw, throwThe, MonadExceptOf.throw, Bind.bind, Except.bind] at h
    · rw [show (pure PUnit.unit : Except PyError PUnit) = Except.ok PUnit.unit from rfl,
        bind_ok] at h
      split at h
      · obtain ⟨cs, hcs, h⟩ := bind_ok_inv h
        obtain ⟨ss, hss, h⟩ := bind_ok_inv h
        obtain ⟨vs, hvs, h⟩ := bind_ok_inv h
        obtain ⟨grouped, hg, h⟩ := bind_ok_inv h
        simp only [pure, Except.pure, Except.ok.injEq] at h
        subst h
        obtain ⟨cat, hcat, rfl⟩ := List.mem_map.mp hr
        simp [List.lookup, vnum, sv] at hval
        simp [List.lookup] at hch
        subst hch
        obtain ⟨t, ht, rfl⟩ := List.mem_map.mp hc
        refine ⟨_, rfl, ?_⟩
        simp [List.lookup, hval]
      · obtain ⟨cs, hcs, h⟩ := bind_ok_inv h
        obtain ⟨vs, hvs, h⟩ := bind_ok_inv h
        obtain ⟨grouped, hg, h⟩ := bind_ok_inv h
        simp only [pure, Except.pure, Except.ok.injEq] at h
        subst h
        obtain ⟨t, ht, rfl⟩ := List.mem_map.mp hr
        simp [List.lookup] at hch

/-- Witness for C8: grouping `zeroSumDF` by `k` and reducing `v` with the
default sum gives total 0, and both builders emit only zero percentages;
on `hierZeroDF` the hierarchical treemap's zero-total category gets only
zero child percentages. -/
theorem claim_C8_zero_total_percentages_witness :
    (∀ r ∈ [[("stage", vstr "1"), ("value", sv (.num 1)), ("percentage", vnum 0),
             ("order", vnum 0)],
            [("stage", vstr "2"), ("value", sv (.num (-1))), ("percentage", vnum 0),
             ("order", vnum 1)]],
      r.lookup "percentage" = Option.some (vnum 0)) ∧
    (∀ r ∈ [[("name", vstr "1"), ("value", sv (.num 1)), ("percentage", vnum 0)],
            [("name", vstr "2"), ("value", sv (.num (-1))), ("percentage", vnum 0)]],
      r.lookup "percentage" = Option.some (vnum 0)) ∧
    (∀ c ∈ [PyVal.dict [("name", vstr "1"), ("value", sv (.num 1)),
                        ("percentage", vnum 0)],
            PyVal.dict [("name", vstr "2"), ("value", sv (.num (-1))),
                        ("percentage", vnum 0)]],
      ∃ d, c = PyVal.dict d ∧
        d.lookup "percentage" = Option.some (vnum 0)) := by
  refine ⟨?_, ?_, ?_⟩
  · exact (claim_C8_zero_total_percentages idOracle zeroSumDF
      { x_axis := Option.some "k", y_axis := Option.some "v" }
      ⟨[[("stage", vstr "1"), ("value", sv (.num 1)), ("percentage", vnum 0),
         ("order", vnum 0)],
        [("stage", vstr "2"), ("value", sv (.num (-1))), ("percentage", vnum 0),
         ("order", vnum 1)]],
       [("stage_column", vstr "k"), ("value_column", vstr "v"),
        ("total_stages", vnum 2), ("total_value", vnum 0)]⟩).1 (by rfl) (by rfl)
  · exact (claim_C8_zero_total_percentages idOracle zeroSumDF
      { x_axis := Option.some "k", y_axis := Option.some "v" }
      ⟨[[("name", vstr "1"), ("value", sv (.num 1)), ("percentage", vnum 0)],
        [("name", vstr "2"), ("value", sv (.num (-1))), ("percentage", vnum 0)]],
       [("category_column", vstr "k"), ("value_column", vstr "v"),
        ("subcategory_column", .scalar .none), ("total_categories", vnum 2),
        ("hierarchical", vstr "False")]⟩).2.1 (by rfl) (by rfl) (by rfl)
  · exact (claim_C8_zero_total_percentages idOracle hierZeroDF
      { x_axis := Option.some "c", y_axis := Option.some "v",
        color_by := Option.some "s" }
      ⟨[[("name", vstr "1"), ("value", vnum 0),
         ("children", PyVal.list
           [PyVal.dict [("name", vstr "1"), ("value", sv (.num 1)),
                        ("percentage", vnum 0)],
            PyVal.dict [("name", vstr "2"), ("value", sv (.num (-1))),
                        ("percentage", vnum 0)]])]],
       [("category_column", vstr "c"), ("value_column", vstr "v"),
        ("subcategory_column", vstr "s"), ("total_categories", vnum 1),
        ("hierarchical", vstr "True")]⟩).2.2 (by rfl)
      [("name", vstr "1"), ("value", vnum 0),
       ("children", PyVal.list
         [PyVal.dict [("name", vstr "1"), ("value", sv (.num 1)),
                      ("percentage", vnum 0)],
          PyVal.dict [("name", vstr "2"), ("value", sv (.num (-1))),
                      ("percentage", vnum 0)]])]
      (List.mem_cons_self _ _) (by rfl)
      [PyVal.dict [("name", vstr "1"), ("value", sv (.num 1)),
                   ("percentage", vnum 0)],
       PyVal.dict [("name", vstr "2"), ("value", sv (.num (-1))),
                   ("percentage", vnum 0)]]
      (by rfl)

/-- **C9.** Every waterfall record satisfies `end = start + value` and
`cumulative = end` (the pre- and post-row totals); records appear in the
null-dropped dataset row order; and the final record's post-cumulative
total — also reported as `total_change` — equals the sum of all row values
of the null-dropped input. -/
theorem claim_C9_waterfall_cumulative (df : DataFrame) (params : ChartParameters)
    (p : Payload) (h : generate_waterfall_data df params = Except.ok p) :
    (∀ r ∈ p.data, ∃ s val,
      r.lookup "start" = Option.some (vnum s) ∧
      r.lookup "value" = Option.some (vnum val) ∧
      r.lookup "end" = Option.some (vnum (s + val)) ∧
      r.lookup "cumulative" = Option.some (vnum (s + val))) ∧
    (∃ (rows : List (Nat × List Scalar)) (qs : List ℚ),
      df.select [params.x_axis.getD "", params.y_axis.getD ""] = Except.ok rows ∧
      (dropnaRows rows).map (fun t => t.2.getD 1 Scalar.none) = qs.map Scalar.num ∧
      p.metadata.lookup "total_change" = Option.some (vnum qs.sum) ∧
      (∀ r, p.data.getLast? = Option.some r →
        r.lookup "end" = Option.some (vnum qs.sum) ∧
        r.lookup "cumulative" = Option.some (vnum qs.sum)) ∧
      p.data.map (fun r => r.lookup "category") =
        (dropnaRows rows).map (fun t => Option.some (vstr (t.2.getD 0 Scalar.none).pyStr))) := by
  unfold generate_waterfall_data at h
  dsimp only at h
  split at h
  · simp [throw, throwThe, MonadExceptOf.throw, Bind.bind, Except.bind] at h
  · rw [show (pure PUnit.unit : Except PyError PUnit) = Except.ok PUnit.unit from rfl,
      bind_ok] at h
    obtain ⟨rows, hrows, h⟩ := bind_ok_inv h
    obtain ⟨res, hfold, h⟩ := bind_ok_inv h
    simp only [pure, Except.pure, Except.ok.injEq] at h
    subst h
    obtain ⟨ha, ⟨qs, hqs, hsum⟩, hcat, hlast⟩ := waterfall_foldlM _ _ _ hfold
    constructor
    · intro r hr
      rcases ha r hr with hmem | ⟨cat, s, val, rfl⟩
      · cases hmem
      · exact ⟨s, val, by simp [List.lookup], by simp [List.lookup],
          by simp [List.lookup], by simp [List.lookup]⟩
    · refine ⟨rows, qs, hrows, hqs, ?_, ?_, ?_⟩
      · have : res.2 = qs.sum := by rw [hsum]; ring
        simp [List.lookup, this]
      · intro r hr
        have hres := hlast (by intro r' hr'; simp at hr') r hr
        have : res.2 = qs.sum := by rw [hsum]; ring
        rw [this] at hres
        exact hres
      · rw [hcat]
        simp

/-- Witness for C9: three rows with values 3, −1, 4. -/
theorem claim_C9_waterfall_cumulative_witness :
    (∀ r ∈ ([[("category", vstr "a"), ("value", vnum 3), ("cumulative", vnum 3),
              ("start", vnum 0), ("end", vnum 3)],
             [("category", vstr "b"), ("value", vnum (-1)), ("cumulative", vnum 2),
              ("start", vnum 3), ("end", vnum 2)],
             [("category", vstr "c"), ("value", vnum 4), ("cumulative", vnum 6),
              ("start", vnum 2), ("end", vnum 6)]] : List Rec), ∃ s val,
      r.lookup "start" = Option.some (vnum s) ∧
      r.lookup "value" = Option.some (vnum val) ∧
      r.lookup "end" = Option.some (vnum (s + val)) ∧
      r.lookup "cumulative" = Option.some (vnum (s + val))) ∧
    (∃ (rows : List (Nat × List Scalar)) (qs : List ℚ),
      waterfallDF.select ["c", "v"] = Except.ok rows ∧
      (dropnaRows rows).map (fun t => t.2.getD 1 Scalar.none) = qs.map Scalar.num ∧
      List.lookup "total_change"
        [("category_column", vstr "c"), ("value_column", vstr "v"),
         ("total_change", vnum 6), ("total_steps", vnum 3)] = Option.some (vnum qs.sum) ∧
      (∀ r, ([[("category", vstr "a"), ("value", vnum 3), ("cumulative", vnum 3),
               ("start", vnum 0), ("end", vnum 3)],
              [("category", vstr "b"), ("value", vnum (-1)), ("cumulative", vnum 2),
               ("start", vnum 3), ("end", vnum 2)],
              [("category", vstr "c"), ("value", vnum 4), ("cumulative", vnum 6),
               ("start", vnum 2), ("end", vnum 6)]] : List Rec).getLast? = Option.some r →
        r.lookup "end" = Option.some (vnum qs.sum) ∧
        r.lookup "cumulative" = Option.some (vnum qs.sum)) ∧
      ([[("category", vstr "a"), ("value", vnum 3), ("cumulative", vnum 3),
         ("start", vnum 0), ("end", vnum 3)],
        [("category", vstr "b"), ("value", vnum (-1)), ("cumulative", vnum 2),
         ("start", vnum 3), ("end", vnum 2)],
        [("category", vstr "c"), ("value", vnum 4), ("cumulative", vnum 6),
         ("start", vnum 2), ("end", vnum 6)]] : List Rec).map (fun r => r.lookup "category") =
        (dropnaRows rows).map (fun t => Option.some (vstr (t.2.getD 0 Scalar.none).pyStr))) :=
  claim_C9_waterfall_cumulative waterfallDF
    { x_axis := Option.some "c", y_axis := Option.some "v" }
    ⟨[[("category", vstr "a"), ("value", vnum 3), ("cumulative", vnum 3),
       ("start", vnum 0), ("end", vnum 3)],
      [("category", vstr "b"), ("value", vnum (-1)), ("cumulative", vnum 2),
       ("start", vnum 3), ("end", vnum 2)],
      [("category", vstr "c"), ("value", vnum 4), ("cumulative", vnum 6),
       ("start", vnum 2), ("end", vnum 6)]],
     [("category_column", vstr "c"), ("value_column", vstr "v"),
      ("total_change", vnum 6), ("total_steps", vnum 3)]⟩ (by rfl)

/-- **C10 counterexample.** A candlestick request without `x_axis` makes the
engine raise (the builder's validation error, rewrapped by the blanket
handler), so the engine does not return a `not_implemented` payload for
every candlestick request. -/
theorem claim_C10_counterexample :
    get_chart_data idOracle [("f", regionDF)] "f" "candlestick" {} =
      Except.error (PyError.valueError
        "Error generating chart data: x_axis (date) is required for candlestick charts") :=
  rfl

/-- **C10 amended.** The gantt, sankey and chord builders always return a
success payload holding a single `error`-message record with metadata status
`not_implemented`; the candlestick builder returns its placeholder only when
`x_axis` is supplied (truthy) and raises a `ValueError` otherwise. -/
theorem claim_C10_amended_placeholders (params : ChartParameters) :
    generate_gantt_data = Except.ok
      ⟨[[("error", vstr "Gantt charts require start_date, end_date, and task columns")]],
        [("chart_type", vstr "gantt"), ("status", vstr "not_implemented")]⟩ ∧
    generate_sankey_data = Except.ok
      ⟨[[("error", vstr "Sankey diagrams require source, target, and value columns")]],
        [("chart_type", vstr "sankey"), ("status", vstr "not_implemented")]⟩ ∧
    generate_chord_data = Except.ok
      ⟨[[("error", vstr "Chord diagrams require matrix data structure")]],
        [("chart_type", vstr "chord"), ("status", vstr "not_implemented")]⟩ ∧
    (strTruthy params.x_axis = true →
      generate_candlestick_data params = Except.ok
        ⟨[[("error", vstr "Candlestick charts require OHLC data structure")]],
          [("chart_type", vstr "candlestick"), ("status", vstr "not_implemented")]⟩) ∧
    (strTruthy params.x_axis = false →
      generate_candlestick_data params = Except.error
        (PyError.valueError "x_axis (date) is required for candlestick charts")) := by
  refine ⟨rfl, rfl, rfl, ?_, ?_⟩
  · intro h
    simp [generate_candlestick_data, h, bind_ok, pure, Except.pure]
  · intro h
    simp [generate_candlestick_data, h, throw, throwThe, MonadExceptOf.throw]

/-- Witness for the C10 amended theorem: candlestick with and without a
date column. -/
theorem claim_C10_amended_placeholders_witness :
    generate_candlestick_data { x_axis := Option.some "date" } = Except.ok
      ⟨[[("error", vstr "Candlestick charts require OHLC data structure")]],
        [("chart_type", vstr "candlestick"), ("status", vstr "not_implemented")]⟩ ∧
    generate_candlestick_data {} = Except.error
      (PyError.valueError "x_axis (date) is required for candlestick charts") :=
  ⟨(claim_C10_amended_placeholders { x_axis := Option.some "date" }).2.2.2.1 (by decide),
   (claim_C10_amended_placeholders {}).2.2.2.2 (by rfl)⟩

end Claims

end ChartData
